import Mathlib

/-!
Launchpad Mini protocol layer (inegm/golp, package launchpad)

A shallow embedding of `pkg/launchpad`: the value model of `types.go` and
`constants.go`, the buffer state machine of `buffer.go`, the LED operations of
`led.go`, and the session operations, message queue and inbound decoder of
`device.go`.

Conventions of the embedding.

* Go `int` (and the named integer types `Color`, `Brightness`, `MappingMode`,
  `BufferID`) is `Int`; arithmetic that can leave the 64-bit range is wrapped
  with `wrapInt`.
* Go `byte` is `Nat`; the conversion `byte(i)` is `byte i = (i mod 256)`.
* Go `error` is `Option LpError`, `none` standing for `nil`.
* The mutex `lp.mu` is not modelled: every operation is one atomic step on the
  session value.
* The output port is external. Each operation that can reach `out.Send` takes
  the outcome of that call as a parameter (`sendOk`), and the session value
  carries the trace `wire` of all frames handed to `out.Send` with their
  outcomes. Likewise `calls` is the trace of handler invocations. An operation
  that sends several frames takes a function `env` instead: `env n` is the
  outcome of the send that becomes entry `n` of `wire`.
* A call that can panic returns a `CallResult`.
-/

namespace Golp

/-! ## constants.go -/

def statusNoteOff : Nat := 0x80
def statusNoteOn : Nat := 0x90
def statusControlChange : Nat := 0xB0

def controllerTopButton0 : Int := 104
def controllerTopButton7 : Int := 111

def controllerSystem : Nat := 0

def systemReset : Nat := 0
def systemLayoutXY : Nat := 1
def systemLayoutDrum : Nat := 2
def systemTestLow : Nat := 125
def systemTestMedium : Nat := 126
def systemTestFull : Nat := 127

def bufferBase : Int := 32
def bufferFlagCopy : Int := 16
def bufferFlagFlash : Int := 8

def velocityFlagsClear : Int := 0x08
def velocityFlagsCopy : Int := 0x04
def velocityFlagsNormal : Int := Int.lor velocityFlagsCopy velocityFlagsClear
def velocityFlagsFlash : Int := velocityFlagsClear

def GridWidth : Int := 8
def GridHeight : Int := 8
def SceneButtons : Int := 8
def TopButtons : Int := 8

def velocityPressed : Nat := 127
def velocityReleased : Nat := 0

def BrightnessOff : Int := 0
def BrightnessLow : Int := 1
def BrightnessMedium : Int := 2
def BrightnessFull : Int := 3

/-! ## constants.go: pre-calculated velocities -/

def VelocityOff : Nat := 0x0C
def VelocityRedLow : Nat := 0x0D
def VelocityRedMedium : Nat := 0x0E
def VelocityRedFull : Nat := 0x0F
def VelocityAmberLow : Nat := 0x1D
def VelocityAmberMedium : Nat := 0x2E
def VelocityAmberFull : Nat := 0x3F
def VelocityYellowFull : Nat := 0x3E
def VelocityGreenLow : Nat := 0x1C
def VelocityGreenMedium : Nat := 0x2C
def VelocityGreenFull : Nat := 0x3C
def VelocityRedFullFlash : Nat := 0x0B
def VelocityAmberFullFlash : Nat := 0x3B
def VelocityYellowFullFlash : Nat := 0x3A
def VelocityGreenFullFlash : Nat := 0x38

/-! ## Machine integers -/

/-- Two's-complement wrap of a mathematical integer into the 64-bit range of Go `int`. -/
def wrapInt (i : Int) : Int :=
  (i + 9223372036854775808) % 18446744073709551616 - 9223372036854775808

/-- The Go conversion `byte(i)`: the low eight bits of `i`. -/
def byte (i : Int) : Nat := (i % 256).toNat

/-! ## types.go -/

def ColorOff : Int := 0
def ColorRed : Int := 1
def ColorGreen : Int := 2
def ColorAmber : Int := 3
def ColorYellow : Int := 4

/-- The method `Brightness.Valid`. -/
def Brightness.Valid (b : Int) : Bool := decide (b ≥ 0) && decide (b ≤ 3)

def MappingXY : Int := 0
def MappingDrum : Int := 1

/-- A button of the Launchpad (`type Button struct`). -/
structure Button where
  X : Int
  Y : Int
  IsScene : Bool
  IsTop : Bool
  deriving DecidableEq, Repr

def NewGridButton (x y : Int) : Button :=
  { X := x, Y := y, IsScene := false, IsTop := false }

def NewSceneButton (y : Int) : Button :=
  { X := 8, Y := y, IsScene := true, IsTop := false }

def NewTopButton (x : Int) : Button :=
  { X := x, Y := -1, IsScene := false, IsTop := true }

def Button.Valid (b : Button) : Bool :=
  if b.IsTop then
    decide (b.X ≥ 0) && decide (b.X < TopButtons)
  else if b.IsScene then
    decide (b.Y ≥ 0) && decide (b.Y < SceneButtons)
  else
    decide (b.X ≥ 0) && decide (b.X < GridWidth) && decide (b.Y ≥ 0) && decide (b.Y < GridHeight)

def Button.MIDIKey (b : Button) : Int :=
  if b.IsTop then
    -1
  else
    wrapInt (wrapInt (16 * b.Y) + b.X)

def Button.MIDIController (b : Button) : Int :=
  if !b.IsTop then
    -1
  else
    wrapInt (controllerTopButton0 + b.X)

/-- A button press or release (`type ButtonEvent struct`). -/
structure ButtonEvent where
  Button : Button
  Pressed : Bool
  deriving DecidableEq, Repr

def Buffer0 : Int := 0
def Buffer1 : Int := 1

/-- The method `BufferID.Valid`. -/
def BufferID.Valid (b : Int) : Bool := decide (b = Buffer0) || decide (b = Buffer1)

/-- The state of one LED (`type LEDState struct`). -/
structure LEDState where
  Red : Int
  Green : Int
  Flash : Bool
  deriving DecidableEq, Repr

def LEDState.Velocity (s : LEDState) : Nat :=
  let flags := if s.Flash then velocityFlagsFlash else velocityFlagsNormal
  byte (wrapInt (wrapInt (wrapInt (16 * s.Green) + s.Red) + flags))

def NewLEDState (color : Int) (brightness : Int) : LEDState :=
  let state : LEDState := { Red := 0, Green := 0, Flash := false }
  if brightness = BrightnessOff then
    state
  else if color = ColorOff then
    state
  else if color = ColorRed then
    { state with Red := brightness }
  else if color = ColorGreen then
    { state with Green := brightness }
  else if color = ColorAmber then
    { state with Red := brightness, Green := brightness }
  else if color = ColorYellow then
    if brightness > BrightnessLow then
      { state with Green := brightness, Red := wrapInt (brightness - 1) }
    else
      { state with Green := brightness }
  else
    state

/-! ## led.go (pure helpers) -/

def GetVelocity (color : Int) (brightness : Int) : Nat :=
  (NewLEDState color brightness).Velocity

def GetVelocityRGB (red green : Int) (flash : Bool) : Nat :=
  LEDState.Velocity { Red := red, Green := green, Flash := flash }

/-! ## device.go: the session value -/

/-- An error value. The constructors follow the `fmt.Errorf` calls of the package;
`channel` is the error returned by the output port, `openMIDI`, `listen` and `portClose`
are the errors of `openMIDI`, `startListening` and `midiConnection.close`, and `wrapErr`
is the `%w` wrapping. -/
inductive LpError where
  | notOpen
  | invalidBufferID (b : Int)
  | invalidMappingMode (m : Int)
  | invalidTestBrightness (b : Int)
  | invalidButton (b : Button)
  | invalidBrightness (b : Int)
  | channel
  | alreadyOpen
  | openMIDI
  | listen
  | portClose
  | invalidRow (y : Int)
  | invalidColumn (x : Int)
  | invalidSceneIndex (y : Int)
  | invalidTopIndex (x : Int)
  | wrapErr (context : String) (inner : LpError)
  deriving DecidableEq, Repr

/-- A three-byte MIDI frame (`type message struct`). -/
structure message where
  status : Nat
  data1 : Nat
  data2 : Nat
  deriving DecidableEq, Repr

/-- The value behind `lp.midi` when it is not nil. The ports themselves are external. -/
structure midiConnection where
  deriving DecidableEq, Repr

/-- The session (`type Launchpad struct`). Channels are their buffered contents, oldest
first; `stopQueueClosed` and `stopListenerClosed` record whether the signalling channels
have been closed; `listenerStop` records whether the stop function is set; handlers are
identified by number. `wire` and `calls` are traces of the external effects: the frames
handed to `out.Send` with the outcome of each call, and the handler invocations. -/
structure Launchpad where
  midi : Option midiConnection
  mappingMode : Int
  displayBuffer : Int
  updateBuffer : Int
  flashEnabled : Bool
  msgQueue : List message
  stopQueueClosed : Bool
  queueRunning : Bool
  buttonHandlers : List Nat
  eventChan : List ButtonEvent
  stopListenerClosed : Bool
  listenerStop : Bool
  wire : List (message × Bool)
  calls : List (Nat × ButtonEvent)
  deriving DecidableEq, Repr

/-- Capacity of `eventChan` (`make(chan ButtonEvent, 50)`). -/
def eventChanCap : Nat := 50

/-- Capacity of `msgQueue` (`make(chan message, 100)`). -/
def msgQueueCap : Nat := 100

def New : Launchpad :=
  { midi := none
    mappingMode := MappingXY
    displayBuffer := Buffer0
    updateBuffer := Buffer0
    flashEnabled := false
    msgQueue := []
    stopQueueClosed := false
    queueRunning := false
    buttonHandlers := []
    eventChan := []
    stopListenerClosed := false
    listenerStop := false
    wire := []
    calls := [] }

/-! ## midi.go: sending -/

/-- The method `midiConnection.sendMessage`: one call of `out.Send` on a three-byte frame,
whose outcome is `sendOk`. -/
def midiConnection.sendMessage (lp : Launchpad) (status data1 data2 : Nat) (sendOk : Bool) :
    Option LpError × Launchpad :=
  (if sendOk then none else some LpError.channel,
   { lp with wire := lp.wire ++ [(({ status := status, data1 := data1, data2 := data2 } : message), sendOk)] })

def midiConnection.sendNoteOn (lp : Launchpad) (key velocity : Nat) (sendOk : Bool) :
    Option LpError × Launchpad :=
  midiConnection.sendMessage lp statusNoteOn key velocity sendOk

def midiConnection.sendControlChange (lp : Launchpad) (controller data : Nat) (sendOk : Bool) :
    Option LpError × Launchpad :=
  midiConnection.sendMessage lp statusControlChange controller data sendOk

/-- The method `Launchpad.sendNoteOn`. -/
def Launchpad.sendNoteOn (lp : Launchpad) (key velocity : Nat) (sendOk : Bool) : Option LpError × Launchpad :=
  match lp.midi with
  | none => (some LpError.notOpen, lp)
  | some _ => midiConnection.sendNoteOn lp key velocity sendOk

/-- The method `Launchpad.sendControlChange`. -/
def Launchpad.sendControlChange (lp : Launchpad) (controller data : Nat) (sendOk : Bool) :
    Option LpError × Launchpad :=
  match lp.midi with
  | none => (some LpError.notOpen, lp)
  | some _ => midiConnection.sendControlChange lp controller data sendOk

/-! ## device.go: system commands -/

def Launchpad.Reset (lp : Launchpad) (sendOk : Bool) : Option LpError × Launchpad :=
  match lp.midi with
  | none => (some LpError.notOpen, lp)
  | some _ =>
    match Launchpad.sendControlChange lp controllerSystem systemReset sendOk with
    | (some err, lp1) => (some (LpError.wrapErr "failed to reset" err), lp1)
    | (none, lp1) =>
      (none, { lp1 with mappingMode := MappingXY, displayBuffer := Buffer0,
                        updateBuffer := Buffer0, flashEnabled := false })

def Launchpad.SetMappingMode (lp : Launchpad) (mode : Int) (sendOk : Bool) : Option LpError × Launchpad :=
  match lp.midi with
  | none => (some LpError.notOpen, lp)
  | some _ =>
    let selected : Option Nat :=
      if mode = MappingXY then some systemLayoutXY
      else if mode = MappingDrum then some systemLayoutDrum
      else none
    match selected with
    | none => (some (LpError.invalidMappingMode mode), lp)
    | some data =>
      match Launchpad.sendControlChange lp controllerSystem data sendOk with
      | (some err, lp1) => (some (LpError.wrapErr "failed to set mapping mode" err), lp1)
      | (none, lp1) => (none, { lp1 with mappingMode := mode })

/-! ## buffer.go -/

/-- The expression `byte((4 * updateBit) + displayBit + bufferBase + flags)`. -/
def bufferData (updateBit displayBit flags : Int) : Nat :=
  byte (wrapInt (wrapInt (wrapInt (wrapInt (4 * updateBit) + displayBit) + bufferBase) + flags))

def Launchpad.SetDisplayBuffer (lp : Launchpad) (buffer : Int) (sendOk : Bool) : Option LpError × Launchpad :=
  match lp.midi with
  | none => (some LpError.notOpen, lp)
  | some _ =>
    if !BufferID.Valid buffer then
      (some (LpError.invalidBufferID buffer), lp)
    else
      let updateBit := lp.updateBuffer
      let displayBit := buffer
      let flags := if lp.flashEnabled then bufferFlagFlash else 0
      let data := bufferData updateBit displayBit flags
      match Launchpad.sendControlChange lp controllerSystem data sendOk with
      | (some err, lp1) => (some (LpError.wrapErr "failed to set display buffer" err), lp1)
      | (none, lp1) => (none, { lp1 with displayBuffer := buffer })

def Launchpad.SetUpdateBuffer (lp : Launchpad) (buffer : Int) (sendOk : Bool) : Option LpError × Launchpad :=
  match lp.midi with
  | none => (some LpError.notOpen, lp)
  | some _ =>
    if !BufferID.Valid buffer then
      (some (LpError.invalidBufferID buffer), lp)
    else
      let updateBit := buffer
      let displayBit := lp.displayBuffer
      let flags := if lp.flashEnabled then bufferFlagFlash else 0
      let data := bufferData updateBit displayBit flags
      match Launchpad.sendControlChange lp controllerSystem data sendOk with
      | (some err, lp1) => (some (LpError.wrapErr "failed to set update buffer" err), lp1)
      | (none, lp1) => (none, { lp1 with updateBuffer := buffer })

def Launchpad.SwapBuffers (lp : Launchpad) (sendOk : Bool) : Option LpError × Launchpad :=
  match lp.midi with
  | none => (some LpError.notOpen, lp)
  | some _ =>
    let newDisplay := lp.updateBuffer
    let newUpdate := lp.displayBuffer
    let updateBit := newUpdate
    let displayBit := newDisplay
    let flags := if lp.flashEnabled then bufferFlagFlash else 0
    let data := bufferData updateBit displayBit flags
    match Launchpad.sendControlChange lp controllerSystem data sendOk with
    | (some err, lp1) => (some (LpError.wrapErr "failed to swap buffers" err), lp1)
    | (none, lp1) => (none, { lp1 with displayBuffer := newDisplay, updateBuffer := newUpdate })

def Launchpad.CopyBuffer (lp : Launchpad) (sendOk : Bool) : Option LpError × Launchpad :=
  match lp.midi with
  | none => (some LpError.notOpen, lp)
  | some _ =>
    let updateBit := lp.updateBuffer
    let displayBit := lp.displayBuffer
    let flags := if lp.flashEnabled then Int.lor bufferFlagCopy bufferFlagFlash else bufferFlagCopy
    let data := bufferData updateBit displayBit flags
    match Launchpad.sendControlChange lp controllerSystem data sendOk with
    | (some err, lp1) => (some (LpError.wrapErr "failed to copy buffer" err), lp1)
    | (none, lp1) => (none, lp1)

def Launchpad.EnableFlash (lp : Launchpad) (enabled : Bool) (sendOk : Bool) : Option LpError × Launchpad :=
  match lp.midi with
  | none => (some LpError.notOpen, lp)
  | some _ =>
    let updateBit := lp.updateBuffer
    let displayBit := lp.displayBuffer
    let flags := if enabled then bufferFlagFlash else 0
    let data := bufferData updateBit displayBit flags
    match Launchpad.sendControlChange lp controllerSystem data sendOk with
    | (some err, lp1) => (some (LpError.wrapErr "failed to set flash mode" err), lp1)
    | (none, lp1) => (none, { lp1 with flashEnabled := enabled })

def Launchpad.GetDisplayBuffer (lp : Launchpad) : Int := lp.displayBuffer

def Launchpad.GetUpdateBuffer (lp : Launchpad) : Int := lp.updateBuffer

def Launchpad.IsFlashEnabled (lp : Launchpad) : Bool := lp.flashEnabled

def Launchpad.GetMappingMode (lp : Launchpad) : Int := lp.mappingMode

/-! ## device.go: inbound frames -/

/-- The decoding part of `handleIncomingMessage`: the length check and the `switch` on the
status byte. `none` is each of the early `return`s. -/
def decodeMessage (msg : List Nat) : Option ButtonEvent :=
  match msg with
  | status :: data1 :: data2 :: _ =>
    if status = statusNoteOn then
      let key : Int := (data1 : Int)
      let x := Int.tmod key 16
      let y := Int.tdiv key 16
      let btn := if x = 8 then NewSceneButton y else NewGridButton x y
      some { Button := btn, Pressed := decide (data2 = velocityPressed) }
    else if status = statusControlChange then
      let controller : Int := (data1 : Int)
      if controller ≥ controllerTopButton0 ∧ controller ≤ controllerTopButton7 then
        let x := controller - controllerTopButton0
        some { Button := NewTopButton x, Pressed := decide (data2 = velocityPressed) }
      else
        none
    else
      none
  | _ => none

/-- The delivering part of `handleIncomingMessage`: the non-blocking send on `eventChan`
(dropped when the buffer is full), then every registered handler, in order. -/
def Launchpad.deliverEvent (lp : Launchpad) (event : ButtonEvent) : Launchpad :=
  let lp1 :=
    if lp.eventChan.length < eventChanCap then
      { lp with eventChan := lp.eventChan ++ [event] }
    else
      lp
  let handlers := lp1.buttonHandlers
  { lp1 with calls := lp1.calls ++ handlers.map (fun h => (h, event)) }

def Launchpad.handleIncomingMessage (lp : Launchpad) (msg : List Nat) : Launchpad :=
  match decodeMessage msg with
  | none => lp
  | some event => Launchpad.deliverEvent lp event

def Launchpad.OnButton (lp : Launchpad) (handler : Nat) : Launchpad :=
  { lp with buttonHandlers := lp.buttonHandlers ++ [handler] }

/-! ## device.go: test pattern, open and close -/

def Launchpad.TestLEDs (lp : Launchpad) (brightness : Int) (sendOk : Bool) :
    Option LpError × Launchpad :=
  match lp.midi with
  | none => (some LpError.notOpen, lp)
  | some _ =>
    let selected : Option Nat :=
      if brightness = BrightnessLow then some systemTestLow
      else if brightness = BrightnessMedium then some systemTestMedium
      else if brightness = BrightnessFull then some systemTestFull
      else none
    match selected with
    | none => (some (LpError.invalidTestBrightness brightness), lp)
    | some data => Launchpad.sendControlChange lp controllerSystem data sendOk

/-- The method `Launchpad.Open`. The three outcomes are those of `openMIDI`, of
`startListening` and of the reset send. Starting the drain goroutine has no effect on the
session value other than the `queueRunning` mark. -/
def Launchpad.Open (lp : Launchpad) (openOk listenOk sendOk : Bool) : Option LpError × Launchpad :=
  match lp.midi with
  | some _ => (some LpError.alreadyOpen, lp)
  | none =>
    if !openOk then
      (some LpError.openMIDI, lp)
    else
      let lp1 := { lp with midi := some {} }
      let lp2 := { lp1 with queueRunning := true }
      if !listenOk then
        (some (LpError.wrapErr "failed to start listener" LpError.listen), { lp2 with midi := none })
      else
        let lp3 := { lp2 with listenerStop := true }
        match Launchpad.sendControlChange lp3 controllerSystem systemReset sendOk with
        | (some err, lp4) =>
          (some (LpError.wrapErr "failed to reset device" err), { lp4 with midi := none })
        | (none, lp4) =>
          (none, { lp4 with mappingMode := MappingXY, displayBuffer := Buffer0,
                            updateBuffer := Buffer0, flashEnabled := false })

/-- How a call ends: it returns its error value, or it panics. -/
inductive CallResult where
  | returned (err : Option LpError)
  | panicked
  deriving DecidableEq, Repr

/-- The method `Launchpad.Close`. The outcomes are those of the reset send (ignored by the
code) and of `midiConnection.close`. Closing a channel that is already closed panics. -/
def Launchpad.Close (lp : Launchpad) (sendOk closeOk : Bool) : CallResult × Launchpad :=
  match lp.midi with
  | none => (CallResult.returned none, lp)
  | some _ =>
    let lp1 := (Launchpad.sendControlChange lp controllerSystem systemReset sendOk).2
    let lp2 := if lp1.listenerStop then { lp1 with listenerStop := false } else lp1
    if lp2.queueRunning && lp2.stopQueueClosed then
      (CallResult.panicked, lp2)
    else
      let lp3 :=
        if lp2.queueRunning then { lp2 with stopQueueClosed := true, queueRunning := false }
        else lp2
      if lp3.stopListenerClosed then
        (CallResult.panicked, lp3)
      else
        let lp4 := { lp3 with stopListenerClosed := true }
        (CallResult.returned (if closeOk then none else some LpError.portClose),
         { lp4 with midi := none })

/-! ## led.go: LED operations -/

def Launchpad.SetButtonLED (lp : Launchpad) (btn : Button) (color brightness : Int)
    (sendOk : Bool) : Option LpError × Launchpad :=
  match lp.midi with
  | none => (some LpError.notOpen, lp)
  | some _ =>
    if !btn.Valid then
      (some (LpError.invalidButton btn), lp)
    else if !Brightness.Valid brightness then
      (some (LpError.invalidBrightness brightness), lp)
    else
      let state := NewLEDState color brightness
      let velocity := state.Velocity
      if btn.IsTop then
        let controller := byte btn.MIDIController
        Launchpad.sendControlChange lp controller velocity sendOk
      else
        let key := byte btn.MIDIKey
        Launchpad.sendNoteOn lp key velocity sendOk

def Launchpad.SetLED (lp : Launchpad) (x y : Int) (color brightness : Int) (sendOk : Bool) :
    Option LpError × Launchpad :=
  let btn := NewGridButton x y
  Launchpad.SetButtonLED lp btn color brightness sendOk

def Launchpad.SetButtonLEDState (lp : Launchpad) (btn : Button) (state : LEDState)
    (sendOk : Bool) : Option LpError × Launchpad :=
  match lp.midi with
  | none => (some LpError.notOpen, lp)
  | some _ =>
    if !btn.Valid then
      (some (LpError.invalidButton btn), lp)
    else
      let velocity := state.Velocity
      if btn.IsTop then
        let controller := byte btn.MIDIController
        Launchpad.sendControlChange lp controller velocity sendOk
      else
        let key := byte btn.MIDIKey
        Launchpad.sendNoteOn lp key velocity sendOk

def Launchpad.SetLEDState (lp : Launchpad) (x y : Int) (state : LEDState) (sendOk : Bool) :
    Option LpError × Launchpad :=
  let btn := NewGridButton x y
  Launchpad.SetButtonLEDState lp btn state sendOk

/-- The loop `for i := 0; i < n; i++ { err := body(i); if err != nil { return err } }`
over the index list `is`: the body runs on each index in turn and the first error ends
the loop and is returned. -/
def forLoop (body : Launchpad → Int → Option LpError × Launchpad) :
    List Int → Launchpad → Option LpError × Launchpad
  | [], lp => (none, lp)
  | i :: rest, lp =>
    match body lp i with
    | (some err, lp1) => (some err, lp1)
    | (none, lp1) => forLoop body rest lp1

/-- The values taken by `i` in `for i := 0; i < n; i++`. -/
def indices (n : Int) : List Int := (List.range n.toNat).map (fun k => (k : Int))

/-- The method `Launchpad.Clear`. Operations that send several frames take the outcomes
as a function `env`: `env n` is the outcome of the send that becomes entry `n` of the
trace `wire`. -/
def Launchpad.Clear (lp : Launchpad) (env : Nat → Bool) : Option LpError × Launchpad :=
  match forLoop (fun lp1 y =>
      forLoop (fun lp2 x => Launchpad.SetLED lp2 x y ColorOff BrightnessOff (env lp2.wire.length))
        (indices GridWidth) lp1) (indices GridHeight) lp with
  | (some err, lp1) => (some err, lp1)
  | (none, lp1) =>
    match forLoop (fun lp2 y =>
        Launchpad.SetButtonLED lp2 (NewSceneButton y) ColorOff BrightnessOff (env lp2.wire.length))
        (indices SceneButtons) lp1 with
    | (some err, lp2) => (some err, lp2)
    | (none, lp2) =>
      forLoop (fun lp3 x =>
        Launchpad.SetButtonLED lp3 (NewTopButton x) ColorOff BrightnessOff (env lp3.wire.length))
        (indices TopButtons) lp2

def Launchpad.SetAllLEDs (lp : Launchpad) (color brightness : Int) (env : Nat → Bool) :
    Option LpError × Launchpad :=
  forLoop (fun lp1 y =>
    forLoop (fun lp2 x => Launchpad.SetLED lp2 x y color brightness (env lp2.wire.length))
      (indices GridWidth) lp1) (indices GridHeight) lp

def Launchpad.SetRow (lp : Launchpad) (y : Int) (color brightness : Int) (env : Nat → Bool) :
    Option LpError × Launchpad :=
  if y < 0 ∨ y ≥ GridHeight then
    (some (LpError.invalidRow y), lp)
  else
    forLoop (fun lp1 x => Launchpad.SetLED lp1 x y color brightness (env lp1.wire.length))
      (indices GridWidth) lp

def Launchpad.SetColumn (lp : Launchpad) (x : Int) (color brightness : Int) (env : Nat → Bool) :
    Option LpError × Launchpad :=
  if x < 0 ∨ x ≥ GridWidth then
    (some (LpError.invalidColumn x), lp)
  else
    forLoop (fun lp1 y => Launchpad.SetLED lp1 x y color brightness (env lp1.wire.length))
      (indices GridHeight) lp

def Launchpad.SetSceneButton (lp : Launchpad) (y : Int) (color brightness : Int)
    (sendOk : Bool) : Option LpError × Launchpad :=
  if y < 0 ∨ y ≥ SceneButtons then
    (some (LpError.invalidSceneIndex y), lp)
  else
    let btn := NewSceneButton y
    Launchpad.SetButtonLED lp btn color brightness sendOk

def Launchpad.SetTopButton (lp : Launchpad) (x : Int) (color brightness : Int)
    (sendOk : Bool) : Option LpError × Launchpad :=
  if x < 0 ∨ x ≥ TopButtons then
    (some (LpError.invalidTopIndex x), lp)
  else
    let btn := NewTopButton x
    Launchpad.SetButtonLED lp btn color brightness sendOk

def Launchpad.SetAllTopButtons (lp : Launchpad) (color brightness : Int) (env : Nat → Bool) :
    Option LpError × Launchpad :=
  forLoop (fun lp1 x => Launchpad.SetTopButton lp1 x color brightness (env lp1.wire.length))
    (indices TopButtons) lp

def Launchpad.SetAllSceneButtons (lp : Launchpad) (color brightness : Int) (env : Nat → Bool) :
    Option LpError × Launchpad :=
  forLoop (fun lp1 y => Launchpad.SetSceneButton lp1 y color brightness (env lp1.wire.length))
    (indices SceneButtons) lp

/-! ## device.go: the message queue -/

/-- The method `Launchpad.queueMessage`: a send on the buffered channel `msgQueue`.
`none` stands for the send blocking because the buffer is full. -/
def Launchpad.queueMessage (lp : Launchpad) (status data1 data2 : Nat) : Option Launchpad :=
  if lp.msgQueue.length < msgQueueCap then
    some { lp with msgQueue := lp.msgQueue ++ [message.mk status data1 data2] }
  else
    none

/-- One iteration of the loop of `processMessageQueue` that takes the `msgQueue` case of
the `select`: the oldest message is received, and after the tick it is sent if the
session is open; the result of the send is dropped. With an empty queue the iteration
waits and nothing changes. The other case, `stopQueue`, ends the loop. -/
def Launchpad.processMessageQueueStep (lp : Launchpad) (sendOk : Bool) : Launchpad :=
  match lp.msgQueue with
  | [] => lp
  | msg :: rest =>
    let lp1 := { lp with msgQueue := rest }
    match lp1.midi with
    | none => lp1
    | some _ => (midiConnection.sendMessage lp1 msg.status msg.data1 msg.data2 sendOk).2

/-- Successive iterations of `processMessageQueue`, one per send outcome in `oks`. -/
def Launchpad.processMessageQueue (lp : Launchpad) (oks : List Bool) : Launchpad :=
  oks.foldl Launchpad.processMessageQueueStep lp

/-! ## Observations used to state the properties -/

/-- Send the frames of `fs` in order as `sendMessage` does, taking the outcome of each
send from `env`, and stop after the first send that fails. -/
def sendAll (env : Nat → Bool) : List message → Launchpad → Option LpError × Launchpad
  | [], lp => (none, lp)
  | m :: rest, lp =>
    match midiConnection.sendMessage lp m.status m.data1 m.data2 (env lp.wire.length) with
    | (some err, lp1) => (some err, lp1)
    | (none, lp1) => sendAll env rest lp1

/-- The frames of a full clear, in order: the 64 grid LEDs row by row, the 8 scene LEDs,
the 8 top LEDs, each with the velocity 12 of an LED that is off. -/
def clearFrames : List message :=
  (List.range 8).flatMap (fun y => (List.range 8).map (fun x => message.mk 0x90 (16 * y + x) 12))
    ++ (List.range 8).map (fun y => message.mk 0x90 (16 * y + 8) 12)
    ++ (List.range 8).map (fun x => message.mk 0xB0 (104 + x) 12)

/-- The frame that sets the LED of button `b` to velocity `vel`: control-change on the
button's controller for a top button, note-on on its key otherwise. -/
def ledFrame (b : Button) (vel : Nat) : message :=
  if b.IsTop then message.mk 0xB0 (byte b.MIDIController) vel
  else message.mk 0x90 (byte b.MIDIKey) vel

/-- Whether a buffer command byte carries the copy flag (`bufferFlagCopy`, bit 4). -/
def hasCopyFlag (data : Nat) : Bool := decide (data / 16 % 2 = 1)

/-- The configuration after a reset: X-Y mapping, both buffers 0, flash off. -/
def resetConfig : Int × Int × Int × Bool := (MappingXY, Buffer0, Buffer0, false)

/-- The in-memory configuration of a session: mapping mode, display buffer, update buffer
and flash mode. -/
def Launchpad.config (lp : Launchpad) : Int × Int × Int × Bool :=
  (lp.mappingMode, lp.displayBuffer, lp.updateBuffer, lp.flashEnabled)

/-- One call of the buffer interface, with its argument and the outcome of the send it
attempts (ignored when the call returns before sending). -/
inductive BufferOp where
  | setDisplay (buffer : Int) (sendOk : Bool)
  | setUpdate (buffer : Int) (sendOk : Bool)
  | swap (sendOk : Bool)
  deriving DecidableEq, Repr

def Launchpad.applyBufferOp (lp : Launchpad) : BufferOp → Launchpad
  | BufferOp.setDisplay b ok => (lp.SetDisplayBuffer b ok).2
  | BufferOp.setUpdate b ok => (lp.SetUpdateBuffer b ok).2
  | BufferOp.swap ok => (lp.SwapBuffers ok).2

/-- Run a sequence of buffer calls, first to last. -/
def Launchpad.runBufferOps (lp : Launchpad) (ops : List BufferOp) : Launchpad :=
  ops.foldl Launchpad.applyBufferOp lp

/-- The last frame of a trace whose send succeeded, if any. -/
def lastSent (w : List (message × Bool)) : Option message :=
  w.foldl (fun acc x => if x.2 then some x.1 else acc) none

/-- The invariant of the buffer interface relative to a trace prefix `p`: both buffer ids
are valid, the trace extends `p`, and the last successful frame after `p`, if there is
one, is the buffer command of the current configuration. -/
def BufferInv (p : List (message × Bool)) (lp : Launchpad) : Prop :=
  BufferID.Valid lp.displayBuffer = true ∧ BufferID.Valid lp.updateBuffer = true
  ∧ ∃ w, lp.wire = p ++ w
      ∧ ∀ m, lastSent w = some m →
          m.status = 0xB0 ∧ m.data1 = 0
          ∧ (m.data2 : Int) = 4 * lp.updateBuffer + lp.displayBuffer + 32
              + (if lp.flashEnabled then 8 else 0)

/-- A session opened through the API: `New()` followed by an `Open()` in which every
channel operation succeeds. -/
def openedSession : Launchpad := (New.Open true true true).2

/-- The opened session after `SetUpdateBuffer(1)` and `EnableFlash(true)`, both sent
successfully. -/
def usedSession : Launchpad :=
  ((openedSession.SetUpdateBuffer 1 true).2.EnableFlash true true).2

/-- A sample open session with two handlers and one queued event. -/
def sampleSession : Launchpad :=
  { New with
    midi := some {}
    displayBuffer := 0
    updateBuffer := 1
    flashEnabled := true
    buttonHandlers := [0, 1]
    eventChan := [{ Button := NewGridButton 0 0, Pressed := true }] }

/-! ## Arithmetic helpers -/

theorem wrapInt_of_range (i : Int) (h1 : -9223372036854775808 ≤ i)
    (h2 : i < 9223372036854775808) : wrapInt i = i := by
  unfold wrapInt; omega

theorem byte_of_range (i : Int) (h1 : 0 ≤ i) (h2 : i < 256) : ((byte i : Nat) : Int) = i := by
  unfold byte; omega

theorem velocityFlagsNormal_eq : velocityFlagsNormal = 12 := by decide

theorem byte_natCast (n : Nat) (h : n < 256) : byte (n : Int) = n := by
  unfold byte; omega

/-- The velocity byte for in-range intensities, as an integer. -/
theorem velocity_in_range (r g : Int) (flash : Bool) (hr0 : 0 ≤ r) (hr3 : r ≤ 3)
    (hg0 : 0 ≤ g) (hg3 : g ≤ 3) :
    ((LEDState.Velocity { Red := r, Green := g, Flash := flash } : Nat) : Int)
      = 16 * g + r + (if flash then 8 else 12) := by
  cases flash <;>
    simp only [LEDState.Velocity, velocityFlagsFlash, velocityFlagsClear, velocityFlagsNormal_eq,
      wrapInt, byte] <;> simp <;> omega

/-! ## Value model: velocity and colour lowering -/

/-- C1: for red and green intensities in 0..3, `Velocity` is `16*g + r + 12` without flash
and `16*g + r + 8` with flash, and `GetVelocityRGB` returns the same byte. -/
theorem C1_velocity_formula (r g : Int) (hr0 : 0 ≤ r) (hr3 : r ≤ 3) (hg0 : 0 ≤ g) (hg3 : g ≤ 3) :
    ((LEDState.Velocity { Red := r, Green := g, Flash := false } : Nat) : Int) = 16 * g + r + 12
    ∧ ((LEDState.Velocity { Red := r, Green := g, Flash := true } : Nat) : Int) = 16 * g + r + 8
    ∧ ∀ flash : Bool,
        GetVelocityRGB r g flash = LEDState.Velocity { Red := r, Green := g, Flash := flash } := by
  refine ⟨?_, ?_, fun flash => rfl⟩
  · simpa using velocity_in_range r g false hr0 hr3 hg0 hg3
  · simpa using velocity_in_range r g true hr0 hr3 hg0 hg3

theorem C1_velocity_formula_witness :
    ((LEDState.Velocity { Red := 2, Green := 3, Flash := false } : Nat) : Int) = 16 * 3 + 2 + 12
    ∧ ((LEDState.Velocity { Red := 2, Green := 3, Flash := true } : Nat) : Int) = 16 * 3 + 2 + 8
    ∧ ∀ flash : Bool,
        GetVelocityRGB 2 3 flash = LEDState.Velocity { Red := 2, Green := 3, Flash := flash } :=
  C1_velocity_formula 2 3 (by decide) (by decide) (by decide) (by decide)

/-- C6: yellow lowers asymmetrically. At Medium and Full, green is the brightness and red
is one less; at Low, green is 1 and red stays 0. -/
theorem C6_yellow_asymmetry :
    ((NewLEDState ColorYellow BrightnessMedium).Green = BrightnessMedium
      ∧ (NewLEDState ColorYellow BrightnessMedium).Red = BrightnessMedium - 1)
    ∧ ((NewLEDState ColorYellow BrightnessFull).Green = BrightnessFull
      ∧ (NewLEDState ColorYellow BrightnessFull).Red = BrightnessFull - 1)
    ∧ ((NewLEDState ColorYellow BrightnessLow).Green = 1
      ∧ (NewLEDState ColorYellow BrightnessLow).Red = 0)
    ∧ NewLEDState ColorYellow BrightnessFull = { Red := 2, Green := 3, Flash := false }
    ∧ NewLEDState ColorYellow BrightnessLow = { Red := 0, Green := 1, Flash := false } := by
  decide

/-- C7: within one flash mode, two in-range intensity pairs with the same velocity byte
are the same pair. -/
theorem C7_velocity_injective (flash : Bool) (r1 g1 r2 g2 : Int)
    (hr1 : 0 ≤ r1 ∧ r1 ≤ 3) (hg1 : 0 ≤ g1 ∧ g1 ≤ 3)
    (hr2 : 0 ≤ r2 ∧ r2 ≤ 3) (hg2 : 0 ≤ g2 ∧ g2 ≤ 3)
    (h : LEDState.Velocity { Red := r1, Green := g1, Flash := flash }
          = LEDState.Velocity { Red := r2, Green := g2, Flash := flash }) :
    r1 = r2 ∧ g1 = g2 := by
  have e1 := velocity_in_range r1 g1 flash hr1.1 hr1.2 hg1.1 hg1.2
  have e2 := velocity_in_range r2 g2 flash hr2.1 hr2.2 hg2.1 hg2.2
  rw [h] at e1
  rw [e1] at e2
  omega

theorem C7_velocity_injective_witness :
    LEDState.Velocity { Red := 1, Green := 2, Flash := true }
        = LEDState.Velocity { Red := 1, Green := 2, Flash := true }
    ∧ ((1 : Int) = 1 ∧ (2 : Int) = 2) :=
  ⟨rfl, C7_velocity_injective true 1 2 1 2 (by decide) (by decide) (by decide) (by decide) rfl⟩

/-! ## Inbound decoding -/

/-- What `handleIncomingMessage` does with a frame that decodes to `e`: the event is
appended to the event queue unless the queue is full, and every registered handler is
called once with `e`, in registration order; nothing else changes. -/
theorem handleIncomingMessage_of_decode (lp : Launchpad) (msg : List Nat) (e : ButtonEvent)
    (h : decodeMessage msg = some e) :
    lp.handleIncomingMessage msg =
      { lp with
        eventChan := if lp.eventChan.length < 50 then lp.eventChan ++ [e] else lp.eventChan
        calls := lp.calls ++ lp.buttonHandlers.map (fun i => (i, e)) } := by
  unfold Launchpad.handleIncomingMessage
  rw [h]
  simp only [Launchpad.deliverEvent, eventChanCap]
  split <;> rfl

theorem decodeMessage_noteOn (k v : Nat) (rest : List Nat) :
    decodeMessage (0x90 :: k :: v :: rest) =
      some { Button := if k % 16 = 8 then NewSceneButton ((k / 16 : Nat) : Int)
                       else NewGridButton ((k % 16 : Nat) : Int) ((k / 16 : Nat) : Int)
             Pressed := decide (v = 127) } := by
  simp only [decodeMessage, statusNoteOn, velocityPressed, if_true]
  have hx : Int.tmod (k : Int) 16 = ((k % 16 : Nat) : Int) := by
    rw [Int.tmod_eq_emod (by omega) (by omega)]; omega
  have hy : Int.tdiv (k : Int) 16 = ((k / 16 : Nat) : Int) := by
    rw [Int.tdiv_eq_ediv (by omega) (by omega)]; omega
  rw [hx, hy]
  by_cases h8 : k % 16 = 8
  · have h8i : ((k % 16 : Nat) : Int) = 8 := by omega
    rw [if_pos h8i, if_pos h8]
  · have h8i : ¬ (((k % 16 : Nat) : Int) = 8) := by omega
    rw [if_neg h8i, if_neg h8]

theorem decodeMessage_controlChange (c v : Nat) (rest : List Nat) (h1 : 104 ≤ c) (h2 : c ≤ 111) :
    decodeMessage (0xB0 :: c :: v :: rest) =
      some { Button := NewTopButton ((c : Int) - 104), Pressed := decide (v = 127) } := by
  have hc : (104 : Int) ≤ (c : Int) ∧ (c : Int) ≤ 111 := by omega
  simp [decodeMessage, statusNoteOn, statusControlChange, velocityPressed,
    controllerTopButton0, controllerTopButton7, hc]

/-- C8: a note-on frame `(0x90, k, v, ...)` decodes to exactly one event. Its button is
the scene button of row `k / 16` when `k mod 16 = 8` and the grid button at column
`k mod 16`, row `k / 16` otherwise; it is pressed exactly when `v = 127`. The event goes
to the event queue (unless full) and once to each handler. -/
theorem C8_note_on_decoding (lp : Launchpad) (k v : Nat) (rest : List Nat) :
    decodeMessage (0x90 :: k :: v :: rest) =
      some { Button := if k % 16 = 8 then NewSceneButton ((k / 16 : Nat) : Int)
                       else NewGridButton ((k % 16 : Nat) : Int) ((k / 16 : Nat) : Int)
             Pressed := decide (v = 127) }
    ∧ lp.handleIncomingMessage (0x90 :: k :: v :: rest) =
        lp.deliverEvent
          { Button := if k % 16 = 8 then NewSceneButton ((k / 16 : Nat) : Int)
                      else NewGridButton ((k % 16 : Nat) : Int) ((k / 16 : Nat) : Int)
            Pressed := decide (v = 127) }
    ∧ (lp.handleIncomingMessage (0x90 :: k :: v :: rest)).calls =
        lp.calls ++ lp.buttonHandlers.map (fun i =>
          (i, ({ Button := if k % 16 = 8 then NewSceneButton ((k / 16 : Nat) : Int)
                           else NewGridButton ((k % 16 : Nat) : Int) ((k / 16 : Nat) : Int)
                 Pressed := decide (v = 127) } : ButtonEvent))) := by
  have hd := decodeMessage_noteOn k v rest
  refine ⟨hd, ?_, ?_⟩
  · simp only [Launchpad.handleIncomingMessage, hd]
  · rw [handleIncomingMessage_of_decode lp _ _ hd]

/-- C9: a control-change frame `(0xB0, c, v, ...)` with `c` in 104..111 decodes to exactly
one event, for the top button `c - 104`, pressed exactly when `v = 127`. -/
theorem C9_control_change_decoding (lp : Launchpad) (c v : Nat) (rest : List Nat)
    (h1 : 104 ≤ c) (h2 : c ≤ 111) :
    decodeMessage (0xB0 :: c :: v :: rest) =
      some { Button := NewTopButton ((c : Int) - 104), Pressed := decide (v = 127) }
    ∧ lp.handleIncomingMessage (0xB0 :: c :: v :: rest) =
        lp.deliverEvent { Button := NewTopButton ((c : Int) - 104), Pressed := decide (v = 127) }
    ∧ (lp.handleIncomingMessage (0xB0 :: c :: v :: rest)).calls =
        lp.calls ++ lp.buttonHandlers.map (fun i =>
          (i, ({ Button := NewTopButton ((c : Int) - 104), Pressed := decide (v = 127) }
                : ButtonEvent))) := by
  have hd := decodeMessage_controlChange c v rest h1 h2
  refine ⟨hd, ?_, ?_⟩
  · simp only [Launchpad.handleIncomingMessage, hd]
  · rw [handleIncomingMessage_of_decode lp _ _ hd]

theorem C9_control_change_decoding_witness :
    decodeMessage (0xB0 :: 111 :: 127 :: []) =
      some { Button := NewTopButton (((111 : Nat) : Int) - 104), Pressed := decide (127 = 127) }
    ∧ New.handleIncomingMessage (0xB0 :: 111 :: 127 :: []) =
        New.deliverEvent
          { Button := NewTopButton (((111 : Nat) : Int) - 104), Pressed := decide (127 = 127) }
    ∧ (New.handleIncomingMessage (0xB0 :: 111 :: 127 :: [])).calls =
        New.calls ++ New.buttonHandlers.map (fun i =>
          (i, ({ Button := NewTopButton (((111 : Nat) : Int) - 104),
                 Pressed := decide (127 = 127) } : ButtonEvent))) :=
  C9_control_change_decoding New 111 127 [] (by decide) (by decide)

theorem decodeMessage_short (msg : List Nat) (h : msg.length < 3) : decodeMessage msg = none := by
  match msg, h with
  | [], _ => rfl
  | [_], _ => rfl
  | [_, _], _ => rfl
  | _ :: _ :: _ :: _, h => simp at h; omega

theorem decodeMessage_other_status (s d1 d2 : Nat) (rest : List Nat)
    (h1 : s ≠ 0x90) (h2 : s ≠ 0xB0) : decodeMessage (s :: d1 :: d2 :: rest) = none := by
  simp [decodeMessage, statusNoteOn, statusControlChange, h1, h2]

theorem decodeMessage_other_controller (d1 d2 : Nat) (rest : List Nat)
    (h : d1 < 104 ∨ 111 < d1) : decodeMessage (0xB0 :: d1 :: d2 :: rest) = none := by
  have hc : ¬ ((104 : Int) ≤ (d1 : Int) ∧ (d1 : Int) ≤ 111) := by omega
  simp only [decodeMessage, statusNoteOn, statusControlChange, controllerTopButton0,
    controllerTopButton7]
  simp only [ge_iff_le, if_true]
  rw [if_neg hc]
  simp

/-- C10: a frame shorter than three bytes, a frame whose status byte is neither 0x90 nor
0xB0, and a 0xB0 frame whose controller is outside 104..111 all decode to no event, and
`handleIncomingMessage` leaves the session exactly as it was: the event queue is unchanged
and no handler is called. -/
theorem C10_unrecognised_discarded (lp : Launchpad) (msg : List Nat)
    (h : msg.length < 3
        ∨ ∃ s d1 d2 rest, msg = s :: d1 :: d2 :: rest
            ∧ ((s ≠ 0x90 ∧ s ≠ 0xB0) ∨ (s = 0xB0 ∧ (d1 < 104 ∨ 111 < d1)))) :
    decodeMessage msg = none
    ∧ lp.handleIncomingMessage msg = lp
    ∧ (lp.handleIncomingMessage msg).eventChan = lp.eventChan
    ∧ (lp.handleIncomingMessage msg).calls = lp.calls := by
  have hd : decodeMessage msg = none := by
    rcases h with h | ⟨s, d1, d2, rest, rfl, h | h⟩
    · exact decodeMessage_short msg h
    · exact decodeMessage_other_status s d1 d2 rest h.1 h.2
    · obtain ⟨rfl, h⟩ := h
      exact decodeMessage_other_controller d1 d2 rest h
  have hl : lp.handleIncomingMessage msg = lp := by
    simp only [Launchpad.handleIncomingMessage, hd]
  exact ⟨hd, hl, by rw [hl], by rw [hl]⟩

theorem C10_unrecognised_discarded_witness :
    decodeMessage [0x80, 5, 0] = none
    ∧ (sampleSession).handleIncomingMessage [0x80, 5, 0] = sampleSession
    ∧ ((sampleSession).handleIncomingMessage [0x80, 5, 0]).eventChan = sampleSession.eventChan
    ∧ ((sampleSession).handleIncomingMessage [0x80, 5, 0]).calls = sampleSession.calls :=
  C10_unrecognised_discarded sampleSession [0x80, 5, 0]
    (Or.inr ⟨0x80, 5, 0, [], rfl, Or.inl ⟨by decide, by decide⟩⟩)

theorem round_trip_grid (x y : Int) (hx0 : 0 ≤ x) (hx : x < 8) (hy0 : 0 ≤ y) (hy : y < 8) :
    decodeMessage [0x90, byte (NewGridButton x y).MIDIKey, 127]
      = some { Button := NewGridButton x y, Pressed := true } := by
  have hk : (NewGridButton x y).MIDIKey = 16 * y + x := by
    simp only [Button.MIDIKey, NewGridButton, wrapInt]; simp; omega
  obtain ⟨n, rfl⟩ := Int.eq_ofNat_of_zero_le hx0
  obtain ⟨m, rfl⟩ := Int.eq_ofNat_of_zero_le hy0
  have hb : byte (NewGridButton (n : Int) (m : Int)).MIDIKey = 16 * m + n := by
    rw [hk]; unfold byte; omega
  rw [hb, decodeMessage_noteOn]
  have h1 : (16 * m + n) % 16 = n := by omega
  have h2 : (16 * m + n) / 16 = m := by omega
  have h3 : ¬ (n = 8) := by omega
  simp [h1, h2, h3]

theorem round_trip_scene (y : Int) (hy0 : 0 ≤ y) (hy : y < 8) :
    decodeMessage [0x90, byte (NewSceneButton y).MIDIKey, 127]
      = some { Button := NewSceneButton y, Pressed := true } := by
  have hk : (NewSceneButton y).MIDIKey = 16 * y + 8 := by
    simp only [Button.MIDIKey, NewSceneButton, wrapInt]; simp; omega
  obtain ⟨m, rfl⟩ := Int.eq_ofNat_of_zero_le hy0
  have hb : byte (NewSceneButton (m : Int)).MIDIKey = 16 * m + 8 := by
    rw [hk]; unfold byte; omega
  rw [hb, decodeMessage_noteOn]
  have h1 : (16 * m + 8) % 16 = 8 := by omega
  have h2 : (16 * m + 8) / 16 = m := by omega
  simp [h1, h2]

theorem round_trip_top (x : Int) (hx0 : 0 ≤ x) (hx : x < 8) :
    decodeMessage [0xB0, byte (NewTopButton x).MIDIController, 127]
      = some { Button := NewTopButton x, Pressed := true } := by
  have hk : (NewTopButton x).MIDIController = 104 + x := by
    simp only [Button.MIDIController, NewTopButton, controllerTopButton0, wrapInt]; simp; omega
  obtain ⟨n, rfl⟩ := Int.eq_ofNat_of_zero_le hx0
  have hb : byte (NewTopButton (n : Int)).MIDIController = 104 + n := by
    rw [hk]; unfold byte; omega
  rw [hb, decodeMessage_controlChange _ _ _ (by omega) (by omega)]
  have h1 : ((104 + n : Nat) : Int) - 104 = (n : Int) := by omega
  simp [h1]

/-- C2: round trip. For a grid button with both coordinates in 0..7, a scene button with
row in 0..7 or a top button with column in 0..7, the inbound frame that addresses it with
data2 = 127 (note-on with the button's key, or control-change with its controller for a
top button) decodes to exactly one event, whose button is that button and which is
pressed. -/
theorem C2_round_trip (lp : Launchpad) (b : Button)
    (hb : (∃ x y, 0 ≤ x ∧ x < 8 ∧ 0 ≤ y ∧ y < 8 ∧ b = NewGridButton x y)
        ∨ (∃ y, 0 ≤ y ∧ y < 8 ∧ b = NewSceneButton y)
        ∨ (∃ x, 0 ≤ x ∧ x < 8 ∧ b = NewTopButton x)) :
    decodeMessage
        (if b.IsTop then [0xB0, byte b.MIDIController, 127] else [0x90, byte b.MIDIKey, 127])
      = some { Button := b, Pressed := true }
    ∧ lp.handleIncomingMessage
        (if b.IsTop then [0xB0, byte b.MIDIController, 127] else [0x90, byte b.MIDIKey, 127])
      = lp.deliverEvent { Button := b, Pressed := true }
    ∧ (lp.handleIncomingMessage
        (if b.IsTop then [0xB0, byte b.MIDIController, 127] else [0x90, byte b.MIDIKey, 127])).calls
      = lp.calls ++ lp.buttonHandlers.map (fun i => (i, ({ Button := b, Pressed := true } : ButtonEvent))) := by
  have hd : decodeMessage
      (if b.IsTop then [0xB0, byte b.MIDIController, 127] else [0x90, byte b.MIDIKey, 127])
        = some { Button := b, Pressed := true } := by
    rcases hb with ⟨x, y, hx0, hx, hy0, hy, rfl⟩ | ⟨y, hy0, hy, rfl⟩ | ⟨x, hx0, hx, rfl⟩
    · have ht : (NewGridButton x y).IsTop = false := rfl
      rw [ht]
      exact round_trip_grid x y hx0 hx hy0 hy
    · have ht : (NewSceneButton y).IsTop = false := rfl
      rw [ht]
      exact round_trip_scene y hy0 hy
    · have ht : (NewTopButton x).IsTop = true := rfl
      rw [ht]
      exact round_trip_top x hx0 hx
  refine ⟨hd, ?_, ?_⟩
  · simp only [Launchpad.handleIncomingMessage, hd]
  · rw [handleIncomingMessage_of_decode lp _ _ hd]

theorem C2_round_trip_witness :
    decodeMessage
        (if (NewSceneButton 5).IsTop then [0xB0, byte (NewSceneButton 5).MIDIController, 127]
         else [0x90, byte (NewSceneButton 5).MIDIKey, 127])
      = some { Button := NewSceneButton 5, Pressed := true }
    ∧ sampleSession.handleIncomingMessage
        (if (NewSceneButton 5).IsTop then [0xB0, byte (NewSceneButton 5).MIDIController, 127]
         else [0x90, byte (NewSceneButton 5).MIDIKey, 127])
      = sampleSession.deliverEvent { Button := NewSceneButton 5, Pressed := true }
    ∧ (sampleSession.handleIncomingMessage
        (if (NewSceneButton 5).IsTop then [0xB0, byte (NewSceneButton 5).MIDIController, 127]
         else [0x90, byte (NewSceneButton 5).MIDIKey, 127])).calls
      = sampleSession.calls ++ sampleSession.buttonHandlers.map
          (fun i => (i, ({ Button := NewSceneButton 5, Pressed := true } : ButtonEvent))) :=
  C2_round_trip sampleSession (NewSceneButton 5)
    (Or.inr (Or.inl ⟨5, by decide, by decide, rfl⟩))

/-! ## Buffer state machine -/

theorem bufferData_valid (u d : Int) (f : Bool) (hu : BufferID.Valid u = true)
    (hd : BufferID.Valid d = true) :
    bufferData u d (if f then bufferFlagFlash else 0)
      = Int.toNat (4 * u + d + 32 + (if f then 8 else 0)) := by
  simp only [BufferID.Valid, Buffer0, Buffer1, Bool.or_eq_true, decide_eq_true_eq] at hu hd
  cases f <;> rcases hu with rfl | rfl <;> rcases hd with rfl | rfl <;> decide

theorem sendControlChange_open (lp : Launchpad) (controller data : Nat) (ok : Bool)
    (hopen : lp.midi.isSome = true) :
    lp.sendControlChange controller data ok =
      (if ok then none else some LpError.channel,
       { lp with wire := lp.wire ++ [(message.mk 0xB0 controller data, ok)] }) := by
  obtain ⟨c, hc⟩ := Option.isSome_iff_exists.mp hopen
  simp only [Launchpad.sendControlChange, hc, midiConnection.sendControlChange,
    midiConnection.sendMessage, statusControlChange]

theorem SetDisplayBuffer_open (lp : Launchpad) (b : Int) (ok : Bool)
    (hopen : lp.midi.isSome = true) (hb : BufferID.Valid b = true) :
    lp.SetDisplayBuffer b ok =
      (if ok then none else some (LpError.wrapErr "failed to set display buffer" LpError.channel),
       { lp with
         displayBuffer := if ok then b else lp.displayBuffer,
         wire := lp.wire ++ [(message.mk 0xB0 0
           (bufferData lp.updateBuffer b (if lp.flashEnabled then bufferFlagFlash else 0)), ok)] }) := by
  have hs := sendControlChange_open lp 0
    (bufferData lp.updateBuffer b (if lp.flashEnabled then bufferFlagFlash else 0)) ok hopen
  obtain ⟨c, hc⟩ := Option.isSome_iff_exists.mp hopen
  cases ok <;> simp [Launchpad.SetDisplayBuffer, hc, hb, hs, controllerSystem]

theorem SetUpdateBuffer_open (lp : Launchpad) (b : Int) (ok : Bool)
    (hopen : lp.midi.isSome = true) (hb : BufferID.Valid b = true) :
    lp.SetUpdateBuffer b ok =
      (if ok then none else some (LpError.wrapErr "failed to set update buffer" LpError.channel),
       { lp with
         updateBuffer := if ok then b else lp.updateBuffer,
         wire := lp.wire ++ [(message.mk 0xB0 0
           (bufferData b lp.displayBuffer (if lp.flashEnabled then bufferFlagFlash else 0)), ok)] }) := by
  have hs := sendControlChange_open lp 0
    (bufferData b lp.displayBuffer (if lp.flashEnabled then bufferFlagFlash else 0)) ok hopen
  obtain ⟨c, hc⟩ := Option.isSome_iff_exists.mp hopen
  cases ok <;> simp [Launchpad.SetUpdateBuffer, hc, hb, hs, controllerSystem]

theorem SwapBuffers_open (lp : Launchpad) (ok : Bool) (hopen : lp.midi.isSome = true) :
    lp.SwapBuffers ok =
      (if ok then none else some (LpError.wrapErr "failed to swap buffers" LpError.channel),
       { lp with
         displayBuffer := if ok then lp.updateBuffer else lp.displayBuffer,
         updateBuffer := if ok then lp.displayBuffer else lp.updateBuffer,
         wire := lp.wire ++ [(message.mk 0xB0 0
           (bufferData lp.displayBuffer lp.updateBuffer
             (if lp.flashEnabled then bufferFlagFlash else 0)), ok)] }) := by
  have hs := sendControlChange_open lp 0
    (bufferData lp.displayBuffer lp.updateBuffer (if lp.flashEnabled then bufferFlagFlash else 0))
    ok hopen
  obtain ⟨c, hc⟩ := Option.isSome_iff_exists.mp hopen
  cases ok <;> simp [Launchpad.SwapBuffers, hc, hs, controllerSystem]

theorem SetDisplayBuffer_invalid (lp : Launchpad) (b : Int) (ok : Bool)
    (hopen : lp.midi.isSome = true) (hb : BufferID.Valid b = false) :
    lp.SetDisplayBuffer b ok = (some (LpError.invalidBufferID b), lp) := by
  obtain ⟨c, hc⟩ := Option.isSome_iff_exists.mp hopen
  simp [Launchpad.SetDisplayBuffer, hc, hb]

theorem SetUpdateBuffer_invalid (lp : Launchpad) (b : Int) (ok : Bool)
    (hopen : lp.midi.isSome = true) (hb : BufferID.Valid b = false) :
    lp.SetUpdateBuffer b ok = (some (LpError.invalidBufferID b), lp) := by
  obtain ⟨c, hc⟩ := Option.isSome_iff_exists.mp hopen
  simp [Launchpad.SetUpdateBuffer, hc, hb]

/-- C3: on an open session with buffer ids in 0..1 and a successful send, `SwapBuffers`
exchanges the display and update buffers, keeps flash mode and everything else, and sends
the single frame `(0xB0, 0, 4*d + u + 32 + flash)` where `d` and `u` are the display and
update buffers before the call. -/
theorem C3_swap_is_exchange (lp : Launchpad) (hopen : lp.midi.isSome = true)
    (hd : BufferID.Valid lp.displayBuffer = true) (hu : BufferID.Valid lp.updateBuffer = true) :
    lp.SwapBuffers true =
      (none,
       { lp with
         displayBuffer := lp.updateBuffer,
         updateBuffer := lp.displayBuffer,
         wire := lp.wire ++ [(message.mk 0xB0 0 (Int.toNat
           (4 * lp.displayBuffer + lp.updateBuffer + 32 + (if lp.flashEnabled then 8 else 0))),
             true)] }) := by
  rw [SwapBuffers_open lp true hopen, bufferData_valid _ _ _ hd hu]
  simp

theorem C3_swap_is_exchange_witness :
    sampleSession.SwapBuffers true =
      (none,
       { sampleSession with
         displayBuffer := sampleSession.updateBuffer,
         updateBuffer := sampleSession.displayBuffer,
         wire := sampleSession.wire ++ [(message.mk 0xB0 0 (Int.toNat
           (4 * sampleSession.displayBuffer + sampleSession.updateBuffer + 32
             + (if sampleSession.flashEnabled then 8 else 0))), true)] }) :=
  C3_swap_is_exchange sampleSession (by decide) (by decide) (by decide)

/-- C5: on an open session, when the channel send fails each of `SetDisplayBuffer`,
`SetUpdateBuffer`, `SwapBuffers`, `CopyBuffer`, `EnableFlash`, `Reset` and `SetMappingMode`
returns an error and leaves mapping mode, display buffer, update buffer and flash mode as
they were, for every argument. -/
theorem C5_failed_send_keeps_state (lp : Launchpad) (hopen : lp.midi.isSome = true)
    (b : Int) (enabled : Bool) (mode : Int) :
    ((lp.SetDisplayBuffer b false).1.isSome = true
        ∧ (lp.SetDisplayBuffer b false).2.config = lp.config)
    ∧ ((lp.SetUpdateBuffer b false).1.isSome = true
        ∧ (lp.SetUpdateBuffer b false).2.config = lp.config)
    ∧ ((lp.SwapBuffers false).1.isSome = true ∧ (lp.SwapBuffers false).2.config = lp.config)
    ∧ ((lp.CopyBuffer false).1.isSome = true ∧ (lp.CopyBuffer false).2.config = lp.config)
    ∧ ((lp.EnableFlash enabled false).1.isSome = true
        ∧ (lp.EnableFlash enabled false).2.config = lp.config)
    ∧ ((lp.Reset false).1.isSome = true ∧ (lp.Reset false).2.config = lp.config)
    ∧ ((lp.SetMappingMode mode false).1.isSome = true
        ∧ (lp.SetMappingMode mode false).2.config = lp.config) := by
  obtain ⟨c, hc⟩ := Option.isSome_iff_exists.mp hopen
  have hs : ∀ controller data : Nat, lp.sendControlChange controller data false =
      (some LpError.channel,
       { lp with wire := lp.wire ++ [(message.mk 0xB0 controller data, false)] }) := by
    intro controller data
    rw [sendControlChange_open lp controller data false hopen]
    simp
  refine ⟨?_, ?_, ?_, ?_, ?_, ?_, ?_⟩
  · cases hb : BufferID.Valid b
    · rw [SetDisplayBuffer_invalid lp b false hopen hb]; simp
    · rw [SetDisplayBuffer_open lp b false hopen hb]; simp [Launchpad.config]
  · cases hb : BufferID.Valid b
    · rw [SetUpdateBuffer_invalid lp b false hopen hb]; simp
    · rw [SetUpdateBuffer_open lp b false hopen hb]; simp [Launchpad.config]
  · rw [SwapBuffers_open lp false hopen]; simp [Launchpad.config]
  · simp [Launchpad.CopyBuffer, hc, hs, Launchpad.config]
  · simp [Launchpad.EnableFlash, hc, hs, Launchpad.config]
  · simp [Launchpad.Reset, hc, hs, Launchpad.config]
  · by_cases hx : mode = MappingXY
    · simp [Launchpad.SetMappingMode, hc, hs, hx, Launchpad.config]
    · by_cases hdr : mode = MappingDrum
      · have hne : ¬ (MappingDrum = MappingXY) := by decide
        simp [Launchpad.SetMappingMode, hc, hs, hdr, hne, Launchpad.config]
      · simp [Launchpad.SetMappingMode, hc, hx, hdr, Launchpad.config]

theorem C5_failed_send_keeps_state_witness :
    ((sampleSession.SetDisplayBuffer 1 false).1.isSome = true
        ∧ (sampleSession.SetDisplayBuffer 1 false).2.config = sampleSession.config)
    ∧ ((sampleSession.SetUpdateBuffer 1 false).1.isSome = true
        ∧ (sampleSession.SetUpdateBuffer 1 false).2.config = sampleSession.config)
    ∧ ((sampleSession.SwapBuffers false).1.isSome = true
        ∧ (sampleSession.SwapBuffers false).2.config = sampleSession.config)
    ∧ ((sampleSession.CopyBuffer false).1.isSome = true
        ∧ (sampleSession.CopyBuffer false).2.config = sampleSession.config)
    ∧ ((sampleSession.EnableFlash false false).1.isSome = true
        ∧ (sampleSession.EnableFlash false false).2.config = sampleSession.config)
    ∧ ((sampleSession.Reset false).1.isSome = true
        ∧ (sampleSession.Reset false).2.config = sampleSession.config)
    ∧ ((sampleSession.SetMappingMode 1 false).1.isSome = true
        ∧ (sampleSession.SetMappingMode 1 false).2.config = sampleSession.config) :=
  C5_failed_send_keeps_state sampleSession (by decide) 1 false 1

/-! ## Sequences of buffer calls -/

theorem lastSent_append_ok (w : List (message × Bool)) (m : message) :
    lastSent (w ++ [(m, true)]) = some m := by
  simp [lastSent, List.foldl_append]

theorem lastSent_append_fail (w : List (message × Bool)) (m : message) :
    lastSent (w ++ [(m, false)]) = lastSent w := by
  simp [lastSent, List.foldl_append]

theorem bufferCommand_eq (u d : Int) (f : Bool) (hu : BufferID.Valid u = true)
    (hd : BufferID.Valid d = true) :
    ((bufferData u d (if f then bufferFlagFlash else 0) : Nat) : Int)
      = 4 * u + d + 32 + (if f then 8 else 0) := by
  rw [bufferData_valid u d f hu hd]
  simp only [BufferID.Valid, Buffer0, Buffer1, Bool.or_eq_true, decide_eq_true_eq] at hu hd
  cases f <;> rcases hu with rfl | rfl <;> rcases hd with rfl | rfl <;> decide

theorem applyBufferOp_closed (lp : Launchpad) (op : BufferOp) (h : lp.midi = none) :
    lp.applyBufferOp op = lp := by
  cases op <;>
    simp [Launchpad.applyBufferOp, Launchpad.SetDisplayBuffer, Launchpad.SetUpdateBuffer,
      Launchpad.SwapBuffers, h]

theorem BufferInv_step_fail (p : List (message × Bool)) (lp lp1 : Launchpad) (fr : message)
    (h : BufferInv p lp) (hwire : lp1.wire = lp.wire ++ [(fr, false)])
    (hd : lp1.displayBuffer = lp.displayBuffer) (hu : lp1.updateBuffer = lp.updateBuffer)
    (hf : lp1.flashEnabled = lp.flashEnabled) : BufferInv p lp1 := by
  obtain ⟨hdv, huv, w, hw, hl⟩ := h
  refine ⟨by rw [hd]; exact hdv, by rw [hu]; exact huv, w ++ [(fr, false)], ?_, ?_⟩
  · rw [hwire, hw, List.append_assoc]
  · intro m hm
    rw [lastSent_append_fail] at hm
    rw [hd, hu, hf]
    exact hl m hm

theorem BufferInv_step_ok (p : List (message × Bool)) (lp lp1 : Launchpad) (d u : Int)
    (h : BufferInv p lp) (hdv : BufferID.Valid d = true) (huv : BufferID.Valid u = true)
    (hwire : lp1.wire = lp.wire ++
      [(message.mk 0xB0 0 (bufferData u d (if lp.flashEnabled then bufferFlagFlash else 0)), true)])
    (hd : lp1.displayBuffer = d) (hu : lp1.updateBuffer = u)
    (hf : lp1.flashEnabled = lp.flashEnabled) : BufferInv p lp1 := by
  obtain ⟨_, _, w, hw, _⟩ := h
  refine ⟨by rw [hd]; exact hdv, by rw [hu]; exact huv,
    w ++ [(message.mk 0xB0 0 (bufferData u d (if lp.flashEnabled then bufferFlagFlash else 0)), true)],
    ?_, ?_⟩
  · rw [hwire, hw, List.append_assoc]
  · intro m hm
    rw [lastSent_append_ok] at hm
    injection hm with hm
    subst hm
    rw [hd, hu, hf]
    exact ⟨rfl, rfl, bufferCommand_eq u d lp.flashEnabled huv hdv⟩

/-- One buffer call preserves the invariant: buffer ids stay in 0..1, the trace grows at
the end, and the last successful frame since the prefix `p` is the command of the current
configuration. -/
theorem applyBufferOp_inv (p : List (message × Bool)) (lp : Launchpad) (op : BufferOp)
    (h : BufferInv p lp) : BufferInv p (lp.applyBufferOp op) := by
  have hd := h.1
  have hu := h.2.1
  cases hmidi : lp.midi with
  | none => rw [applyBufferOp_closed lp op hmidi]; exact h
  | some c =>
    have hopen : lp.midi.isSome = true := by rw [hmidi]; rfl
    cases op with
    | setDisplay b ok =>
      cases hb : BufferID.Valid b with
      | false =>
        simp only [Launchpad.applyBufferOp, SetDisplayBuffer_invalid lp b ok hopen hb]
        exact h
      | true =>
        simp only [Launchpad.applyBufferOp, SetDisplayBuffer_open lp b ok hopen hb]
        cases ok with
        | false => exact BufferInv_step_fail p lp _ _ h rfl rfl rfl rfl
        | true => exact BufferInv_step_ok p lp _ b lp.updateBuffer h hb hu rfl rfl rfl rfl
    | setUpdate b ok =>
      cases hb : BufferID.Valid b with
      | false =>
        simp only [Launchpad.applyBufferOp, SetUpdateBuffer_invalid lp b ok hopen hb]
        exact h
      | true =>
        simp only [Launchpad.applyBufferOp, SetUpdateBuffer_open lp b ok hopen hb]
        cases ok with
        | false => exact BufferInv_step_fail p lp _ _ h rfl rfl rfl rfl
        | true => exact BufferInv_step_ok p lp _ lp.displayBuffer b h hd hb rfl rfl rfl rfl
    | swap ok =>
      simp only [Launchpad.applyBufferOp, SwapBuffers_open lp ok hopen]
      cases ok with
      | false => exact BufferInv_step_fail p lp _ _ h rfl rfl rfl rfl
      | true =>
        exact BufferInv_step_ok p lp _ lp.updateBuffer lp.displayBuffer h hu hd rfl rfl rfl rfl

theorem runBufferOps_inv (p : List (message × Bool)) (ops : List BufferOp) :
    ∀ lp : Launchpad, BufferInv p lp → BufferInv p (lp.runBufferOps ops) := by
  induction ops with
  | nil => intro lp h; exact h
  | cons op ops ih =>
    intro lp h
    exact ih (lp.applyBufferOp op) (applyBufferOp_inv p lp op h)

/-- C4: buffer invariant. From a session whose buffer ids are in 0..1, after any sequence
of `SetDisplayBuffer`, `SetUpdateBuffer` and `SwapBuffers` calls (any arguments, any send
outcomes), if some send of the sequence succeeded then the last successfully sent frame
is `(0xB0, 0, 4*update + display + 32 + flash)` for the configuration at the end. -/
theorem C4_buffer_invariant (lp : Launchpad) (ops : List BufferOp)
    (hd : BufferID.Valid lp.displayBuffer = true) (hu : BufferID.Valid lp.updateBuffer = true)
    (m : message)
    (hm : lastSent ((lp.runBufferOps ops).wire.drop lp.wire.length) = some m) :
    m.status = 0xB0 ∧ m.data1 = 0
    ∧ (m.data2 : Int) = 4 * (lp.runBufferOps ops).updateBuffer + (lp.runBufferOps ops).displayBuffer
        + 32 + (if (lp.runBufferOps ops).flashEnabled then 8 else 0) := by
  have h0 : BufferInv lp.wire lp := ⟨hd, hu, [], by simp, by intro m hm; cases hm⟩
  obtain ⟨_, _, w, hw, hl⟩ := runBufferOps_inv lp.wire ops lp h0
  rw [hw, List.drop_left] at hm
  exact hl m hm

theorem C4_buffer_invariant_witness :
    (message.mk 0xB0 0 44).status = 0xB0 ∧ (message.mk 0xB0 0 44).data1 = 0
    ∧ ((message.mk 0xB0 0 44).data2 : Int)
        = 4 * (sampleSession.runBufferOps
                [BufferOp.setDisplay 1 true, BufferOp.swap false, BufferOp.setUpdate 7 true,
                 BufferOp.setUpdate 0 true, BufferOp.swap true, BufferOp.setDisplay 1 false]).updateBuffer
          + (sampleSession.runBufferOps
                [BufferOp.setDisplay 1 true, BufferOp.swap false, BufferOp.setUpdate 7 true,
                 BufferOp.setUpdate 0 true, BufferOp.swap true, BufferOp.setDisplay 1 false]).displayBuffer
          + 32
          + (if (sampleSession.runBufferOps
                [BufferOp.setDisplay 1 true, BufferOp.swap false, BufferOp.setUpdate 7 true,
                 BufferOp.setUpdate 0 true, BufferOp.swap true, BufferOp.setDisplay 1 false]).flashEnabled
             then 8 else 0) :=
  C4_buffer_invariant sampleSession
    [BufferOp.setDisplay 1 true, BufferOp.swap false, BufferOp.setUpdate 7 true,
     BufferOp.setUpdate 0 true, BufferOp.swap true, BufferOp.setDisplay 1 false]
    (by decide) (by decide) (message.mk 0xB0 0 44) (by decide)

/-! ## Button addressing -/

/-- C11: a grid button at column `x`, row `y` has key `16*y + x` whenever that arithmetic
stays within the range of `int`, and every top button has the sentinel key `-1`. -/
theorem C11_grid_key_and_top_sentinel (x y : Int)
    (h1 : -9223372036854775808 ≤ 16 * y) (h2 : 16 * y < 9223372036854775808)
    (h3 : -9223372036854775808 ≤ 16 * y + x) (h4 : 16 * y + x < 9223372036854775808) :
    (NewGridButton x y).MIDIKey = 16 * y + x
    ∧ (Button.mk x y false false).MIDIKey = 16 * y + x
    ∧ (NewTopButton x).MIDIKey = -1
    ∧ ∀ (cx cy : Int) (scene : Bool), (Button.mk cx cy scene true).MIDIKey = -1 := by
  have hk : (Button.mk x y false false).MIDIKey = 16 * y + x := by
    simp only [Button.MIDIKey]
    rw [wrapInt_of_range (16 * y) h1 h2, wrapInt_of_range (16 * y + x) h3 h4]
    simp
  exact ⟨hk, hk, rfl, fun _ _ _ => rfl⟩

theorem C11_grid_key_and_top_sentinel_witness :
    (NewGridButton 5 7).MIDIKey = 16 * 7 + 5
    ∧ (Button.mk 5 7 false false).MIDIKey = 16 * 7 + 5
    ∧ (NewTopButton 5).MIDIKey = -1
    ∧ ∀ (cx cy : Int) (scene : Bool), (Button.mk cx cy scene true).MIDIKey = -1 :=
  C11_grid_key_and_top_sentinel 5 7 (by decide) (by decide) (by decide) (by decide)

/-- C12 (as the code behaves): a scene button that passes `Valid` but whose `X` field is
not 8 gets the key `16*Y + X`, not `16*Y + 8`. For `X = 3`, `Y = 2` the key is 35, the
key of the grid button at column 3, row 2, rather than 40. -/
theorem C12_scene_key_reads_X :
    (Button.mk 3 2 true false).Valid = true
    ∧ (Button.mk 3 2 true false).MIDIKey = 35
    ∧ (Button.mk 3 2 true false).MIDIKey ≠ 16 * (Button.mk 3 2 true false).Y + 8
    ∧ (Button.mk 3 2 true false).MIDIKey = (NewGridButton 3 2).MIDIKey := by
  decide

/-- C13: a top button with column `x` has controller `104 + x` whenever that sum stays
within the range of `int`, and every button that is not a top button has the sentinel
controller `-1`. -/
theorem C13_top_controller_and_sentinel (x : Int)
    (h1 : -9223372036854775808 ≤ 104 + x) (h2 : 104 + x < 9223372036854775808) :
    (NewTopButton x).MIDIController = 104 + x
    ∧ (∀ (cy : Int) (scene : Bool), (Button.mk x cy scene true).MIDIController = 104 + x)
    ∧ (∀ cx cy : Int, (NewGridButton cx cy).MIDIController = -1)
    ∧ (∀ cy : Int, (NewSceneButton cy).MIDIController = -1)
    ∧ ∀ (cx cy : Int) (scene : Bool), (Button.mk cx cy scene false).MIDIController = -1 := by
  have hk : ∀ (cy : Int) (scene : Bool), (Button.mk x cy scene true).MIDIController = 104 + x := by
    intro cy scene
    simp only [Button.MIDIController, controllerTopButton0]
    rw [wrapInt_of_range (104 + x) h1 h2]
    simp
  exact ⟨hk (-1) false, hk, fun _ _ => rfl, fun _ => rfl, fun _ _ _ => rfl⟩

theorem C13_top_controller_and_sentinel_witness :
    (NewTopButton 7).MIDIController = 104 + 7
    ∧ (∀ (cy : Int) (scene : Bool), (Button.mk 7 cy scene true).MIDIController = 104 + 7)
    ∧ (∀ cx cy : Int, (NewGridButton cx cy).MIDIController = -1)
    ∧ (∀ cy : Int, (NewSceneButton cy).MIDIController = -1)
    ∧ ∀ (cx cy : Int) (scene : Bool), (Button.mk cx cy scene false).MIDIController = -1 :=
  C13_top_controller_and_sentinel 7 (by decide) (by decide)

/-- C14: `Valid` holds exactly when a grid button has both coordinates in 0..7, a scene
button has its row in 0..7, and a top button has its column in 0..7, for all integer
coordinates. -/
theorem C14_valid_iff_in_range :
    (∀ x y : Int, (NewGridButton x y).Valid = true ↔ (0 ≤ x ∧ x < 8 ∧ 0 ≤ y ∧ y < 8))
    ∧ (∀ x y : Int, (Button.mk x y true false).Valid = true ↔ (0 ≤ y ∧ y < 8))
    ∧ (∀ y : Int, (NewSceneButton y).Valid = true ↔ (0 ≤ y ∧ y < 8))
    ∧ (∀ (x y : Int) (scene : Bool), (Button.mk x y scene true).Valid = true ↔ (0 ≤ x ∧ x < 8))
    ∧ (∀ x : Int, (NewTopButton x).Valid = true ↔ (0 ≤ x ∧ x < 8)) := by
  refine ⟨?_, ?_, ?_, ?_, ?_⟩
  · intro x y
    simp only [Button.Valid, NewGridButton, GridWidth, GridHeight]
    simp
    omega
  · intro x y
    simp [Button.Valid, SceneButtons]
  · intro y
    simp [Button.Valid, NewSceneButton, SceneButtons]
  · intro x y scene
    simp [Button.Valid, TopButtons]
  · intro x
    simp [Button.Valid, NewTopButton, TopButtons]

/-! ## Buffer commands: set, copy, flash -/

theorem bufferData_copy_valid (u d : Int) (f : Bool) (hu : BufferID.Valid u = true)
    (hd : BufferID.Valid d = true) :
    bufferData u d (if f then Int.lor bufferFlagCopy bufferFlagFlash else bufferFlagCopy)
      = Int.toNat (4 * u + d + 32 + 16 + (if f then 8 else 0)) := by
  simp only [BufferID.Valid, Buffer0, Buffer1, Bool.or_eq_true, decide_eq_true_eq] at hu hd
  cases f <;> rcases hu with rfl | rfl <;> rcases hd with rfl | rfl <;> decide

theorem bufferCommand_no_copy_flag (u d : Int) (f : Bool) (hu : BufferID.Valid u = true)
    (hd : BufferID.Valid d = true) :
    hasCopyFlag (Int.toNat (4 * u + d + 32 + (if f then 8 else 0))) = false := by
  simp only [BufferID.Valid, Buffer0, Buffer1, Bool.or_eq_true, decide_eq_true_eq] at hu hd
  cases f <;> rcases hu with rfl | rfl <;> rcases hd with rfl | rfl <;> decide

theorem CopyBuffer_open (lp : Launchpad) (ok : Bool) (hopen : lp.midi.isSome = true) :
    lp.CopyBuffer ok =
      (if ok then none else some (LpError.wrapErr "failed to copy buffer" LpError.channel),
       { lp with
         wire := lp.wire ++ [(message.mk 0xB0 0
           (bufferData lp.updateBuffer lp.displayBuffer
             (if lp.flashEnabled then Int.lor bufferFlagCopy bufferFlagFlash else bufferFlagCopy)),
             ok)] }) := by
  have hs := sendControlChange_open lp 0
    (bufferData lp.updateBuffer lp.displayBuffer
      (if lp.flashEnabled then Int.lor bufferFlagCopy bufferFlagFlash else bufferFlagCopy))
    ok hopen
  obtain ⟨c, hc⟩ := Option.isSome_iff_exists.mp hopen
  cases ok <;> simp [Launchpad.CopyBuffer, hc, hs, controllerSystem]

theorem EnableFlash_open (lp : Launchpad) (enabled ok : Bool) (hopen : lp.midi.isSome = true) :
    lp.EnableFlash enabled ok =
      (if ok then none else some (LpError.wrapErr "failed to set flash mode" LpError.channel),
       { lp with
         flashEnabled := if ok then enabled else lp.flashEnabled,
         wire := lp.wire ++ [(message.mk 0xB0 0
           (bufferData lp.updateBuffer lp.displayBuffer (if enabled then bufferFlagFlash else 0)),
             ok)] }) := by
  have hs := sendControlChange_open lp 0
    (bufferData lp.updateBuffer lp.displayBuffer (if enabled then bufferFlagFlash else 0)) ok hopen
  obtain ⟨c, hc⟩ := Option.isSome_iff_exists.mp hopen
  cases ok <;> simp [Launchpad.EnableFlash, hc, hs, controllerSystem]

/-- C15: on an open session with buffer ids in 0..1, a valid argument `b` and a successful
send, `SetDisplayBuffer b` sends the one frame `(0xB0, 0, 4*u + b + 32 + flash)` and sets
only the display buffer, and `SetUpdateBuffer b` sends the one frame
`(0xB0, 0, 4*b + d + 32 + flash)` and sets only the update buffer. -/
theorem C15_set_buffer_commands (lp : Launchpad) (b : Int) (hopen : lp.midi.isSome = true)
    (hd : BufferID.Valid lp.displayBuffer = true) (hu : BufferID.Valid lp.updateBuffer = true)
    (hb : BufferID.Valid b = true) :
    lp.SetDisplayBuffer b true =
      (none,
       { lp with
         displayBuffer := b,
         wire := lp.wire ++ [(message.mk 0xB0 0 (Int.toNat
           (4 * lp.updateBuffer + b + 32 + (if lp.flashEnabled then 8 else 0))), true)] })
    ∧ lp.SetUpdateBuffer b true =
      (none,
       { lp with
         updateBuffer := b,
         wire := lp.wire ++ [(message.mk 0xB0 0 (Int.toNat
           (4 * b + lp.displayBuffer + 32 + (if lp.flashEnabled then 8 else 0))), true)] }) := by
  constructor
  · rw [SetDisplayBuffer_open lp b true hopen hb, bufferData_valid _ _ _ hu hb]
    simp
  · rw [SetUpdateBuffer_open lp b true hopen hb, bufferData_valid _ _ _ hb hd]
    simp

theorem C15_set_buffer_commands_witness :
    sampleSession.SetDisplayBuffer 1 true =
      (none,
       { sampleSession with
         displayBuffer := 1,
         wire := sampleSession.wire ++ [(message.mk 0xB0 0 (Int.toNat
           (4 * sampleSession.updateBuffer + 1 + 32
             + (if sampleSession.flashEnabled then 8 else 0))), true)] })
    ∧ sampleSession.SetUpdateBuffer 1 true =
      (none,
       { sampleSession with
         updateBuffer := 1,
         wire := sampleSession.wire ++ [(message.mk 0xB0 0 (Int.toNat
           (4 * 1 + sampleSession.displayBuffer + 32
             + (if sampleSession.flashEnabled then 8 else 0))), true)] }) :=
  C15_set_buffer_commands sampleSession 1 (by decide) (by decide) (by decide) (by decide)

/-- C17: on an open session with buffer ids in 0..1 and a successful send, `EnableFlash e`
sends the one frame `(0xB0, 0, 4*u + d + 32 + (8 if e))`, with the flag of the requested
`e`, and sets only `flashEnabled`, to `e`. -/
theorem C17_enable_flash_command (lp : Launchpad) (e : Bool) (hopen : lp.midi.isSome = true)
    (hd : BufferID.Valid lp.displayBuffer = true) (hu : BufferID.Valid lp.updateBuffer = true) :
    lp.EnableFlash e true =
      (none,
       { lp with
         flashEnabled := e,
         wire := lp.wire ++ [(message.mk 0xB0 0 (Int.toNat
           (4 * lp.updateBuffer + lp.displayBuffer + 32 + (if e then 8 else 0))), true)] }) := by
  rw [EnableFlash_open lp e true hopen, bufferData_valid _ _ _ hu hd]
  simp

theorem C17_enable_flash_command_witness :
    sampleSession.EnableFlash false true =
      (none,
       { sampleSession with
         flashEnabled := false,
         wire := sampleSession.wire ++ [(message.mk 0xB0 0 (Int.toNat
           (4 * sampleSession.updateBuffer + sampleSession.displayBuffer + 32
             + (if false then 8 else 0))), true)] }) :=
  C17_enable_flash_command sampleSession false (by decide) (by decide) (by decide)

/-- C16: `CopyBuffer` is transient. On an open session with buffer ids in 0..1 it sends
the one frame `(0xB0, 0, 4*u + d + 32 + 16 + flash)` and, whether the send succeeds or
fails, leaves every field of the session as it was. The next `SetDisplayBuffer`,
`SetUpdateBuffer`, `SwapBuffers` or `EnableFlash` command byte is the plain formula,
without the copy flag. -/
theorem C16_copy_is_transient (lp : Launchpad) (ok : Bool) (b : Int) (e : Bool)
    (hopen : lp.midi.isSome = true)
    (hd : BufferID.Valid lp.displayBuffer = true) (hu : BufferID.Valid lp.updateBuffer = true)
    (hb : BufferID.Valid b = true) :
    lp.CopyBuffer ok =
      (if ok then none else some (LpError.wrapErr "failed to copy buffer" LpError.channel),
       { lp with
         wire := lp.wire ++ [(message.mk 0xB0 0 (Int.toNat
           (4 * lp.updateBuffer + lp.displayBuffer + 32 + 16
             + (if lp.flashEnabled then 8 else 0))), ok)] })
    ∧ (lp.CopyBuffer ok).2.config = lp.config
    ∧ (((lp.CopyBuffer ok).2.SetDisplayBuffer b true).2.wire.getLast? =
          some (message.mk 0xB0 0 (Int.toNat
            (4 * lp.updateBuffer + b + 32 + (if lp.flashEnabled then 8 else 0))), true)
        ∧ hasCopyFlag (Int.toNat
            (4 * lp.updateBuffer + b + 32 + (if lp.flashEnabled then 8 else 0))) = false)
    ∧ (((lp.CopyBuffer ok).2.SetUpdateBuffer b true).2.wire.getLast? =
          some (message.mk 0xB0 0 (Int.toNat
            (4 * b + lp.displayBuffer + 32 + (if lp.flashEnabled then 8 else 0))), true)
        ∧ hasCopyFlag (Int.toNat
            (4 * b + lp.displayBuffer + 32 + (if lp.flashEnabled then 8 else 0))) = false)
    ∧ (((lp.CopyBuffer ok).2.SwapBuffers true).2.wire.getLast? =
          some (message.mk 0xB0 0 (Int.toNat
            (4 * lp.displayBuffer + lp.updateBuffer + 32 + (if lp.flashEnabled then 8 else 0))),
              true)
        ∧ hasCopyFlag (Int.toNat
            (4 * lp.displayBuffer + lp.updateBuffer + 32 + (if lp.flashEnabled then 8 else 0)))
              = false)
    ∧ (((lp.CopyBuffer ok).2.EnableFlash e true).2.wire.getLast? =
          some (message.mk 0xB0 0 (Int.toNat
            (4 * lp.updateBuffer + lp.displayBuffer + 32 + (if e then 8 else 0))), true)
        ∧ hasCopyFlag (Int.toNat
            (4 * lp.updateBuffer + lp.displayBuffer + 32 + (if e then 8 else 0))) = false) := by
  have hcopy := CopyBuffer_open lp ok hopen
  rw [bufferData_copy_valid _ _ _ hu hd] at hcopy
  have hopen1 : (lp.CopyBuffer ok).2.midi.isSome = true := by rw [hcopy]; exact hopen
  have hd1 : (lp.CopyBuffer ok).2.displayBuffer = lp.displayBuffer := by rw [hcopy]
  have hu1 : (lp.CopyBuffer ok).2.updateBuffer = lp.updateBuffer := by rw [hcopy]
  have hf1 : (lp.CopyBuffer ok).2.flashEnabled = lp.flashEnabled := by rw [hcopy]
  refine ⟨hcopy, ?_, ⟨?_, ?_⟩, ⟨?_, ?_⟩, ⟨?_, ?_⟩, ⟨?_, ?_⟩⟩
  · rw [hcopy]; rfl
  · rw [SetDisplayBuffer_open _ b true hopen1 hb, hu1, hf1, bufferData_valid _ _ _ hu hb]
    simp
  · exact bufferCommand_no_copy_flag _ _ _ hu hb
  · rw [SetUpdateBuffer_open _ b true hopen1 hb, hd1, hf1, bufferData_valid _ _ _ hb hd]
    simp
  · exact bufferCommand_no_copy_flag _ _ _ hb hd
  · rw [SwapBuffers_open _ true hopen1, hd1, hu1, hf1, bufferData_valid _ _ _ hd hu]
    simp
  · exact bufferCommand_no_copy_flag _ _ _ hd hu
  · rw [EnableFlash_open _ e true hopen1, hd1, hu1, bufferData_valid _ _ _ hu hd]
    simp
  · exact bufferCommand_no_copy_flag _ _ _ hu hd

theorem C16_copy_is_transient_witness :
    sampleSession.CopyBuffer true =
      (if true then none else some (LpError.wrapErr "failed to copy buffer" LpError.channel),
       { sampleSession with
         wire := sampleSession.wire ++ [(message.mk 0xB0 0 (Int.toNat
           (4 * sampleSession.updateBuffer + sampleSession.displayBuffer + 32 + 16
             + (if sampleSession.flashEnabled then 8 else 0))), true)] })
    ∧ (sampleSession.CopyBuffer true).2.config = sampleSession.config
    ∧ (((sampleSession.CopyBuffer true).2.SetDisplayBuffer 1 true).2.wire.getLast? =
          some (message.mk 0xB0 0 (Int.toNat
            (4 * sampleSession.updateBuffer + 1 + 32 + (if sampleSession.flashEnabled then 8 else 0))), true)
        ∧ hasCopyFlag (Int.toNat
            (4 * sampleSession.updateBuffer + 1 + 32 + (if sampleSession.flashEnabled then 8 else 0))) = false)
    ∧ (((sampleSession.CopyBuffer true).2.SetUpdateBuffer 1 true).2.wire.getLast? =
          some (message.mk 0xB0 0 (Int.toNat
            (4 * 1 + sampleSession.displayBuffer + 32 + (if sampleSession.flashEnabled then 8 else 0))), true)
        ∧ hasCopyFlag (Int.toNat
            (4 * 1 + sampleSession.displayBuffer + 32 + (if sampleSession.flashEnabled then 8 else 0))) = false)
    ∧ (((sampleSession.CopyBuffer true).2.SwapBuffers true).2.wire.getLast? =
          some (message.mk 0xB0 0 (Int.toNat
            (4 * sampleSession.displayBuffer + sampleSession.updateBuffer + 32 + (if sampleSession.flashEnabled then 8 else 0))),
              true)
        ∧ hasCopyFlag (Int.toNat
            (4 * sampleSession.displayBuffer + sampleSession.updateBuffer + 32 + (if sampleSession.flashEnabled then 8 else 0)))
              = false)
    ∧ (((sampleSession.CopyBuffer true).2.EnableFlash false true).2.wire.getLast? =
          some (message.mk 0xB0 0 (Int.toNat
            (4 * sampleSession.updateBuffer + sampleSession.displayBuffer + 32 + (if false then 8 else 0))), true)
        ∧ hasCopyFlag (Int.toNat
            (4 * sampleSession.updateBuffer + sampleSession.displayBuffer + 32 + (if false then 8 else 0))) = false) :=
  C16_copy_is_transient sampleSession true 1 false (by decide) (by decide) (by decide) (by decide)

/-! ## System commands, open and close -/

theorem Reset_open (lp : Launchpad) (ok : Bool) (hopen : lp.midi.isSome = true) :
    lp.Reset ok =
      (if ok then none else some (LpError.wrapErr "failed to reset" LpError.channel),
       { lp with
         mappingMode := if ok then MappingXY else lp.mappingMode,
         displayBuffer := if ok then Buffer0 else lp.displayBuffer,
         updateBuffer := if ok then Buffer0 else lp.updateBuffer,
         flashEnabled := if ok then false else lp.flashEnabled,
         wire := lp.wire ++ [(message.mk 0xB0 0 0, ok)] }) := by
  have hs := sendControlChange_open lp 0 0 ok hopen
  obtain ⟨c, hc⟩ := Option.isSome_iff_exists.mp hopen
  cases ok <;> simp [Launchpad.Reset, hc, hs, controllerSystem, systemReset]

theorem Open_success (t : Launchpad) (h : t.midi = none) :
    t.Open true true true =
      (none,
       { t with
         midi := some {},
         queueRunning := true,
         listenerStop := true,
         mappingMode := MappingXY,
         displayBuffer := Buffer0,
         updateBuffer := Buffer0,
         flashEnabled := false,
         wire := t.wire ++ [(message.mk 0xB0 0 0, true)] }) := by
  simp [Launchpad.Open, h, Launchpad.sendControlChange, midiConnection.sendControlChange,
    midiConnection.sendMessage, statusControlChange, controllerSystem, systemReset]

theorem Close_fresh (lp : Launchpad) (sendOk closeOk : Bool) (hopen : lp.midi.isSome = true)
    (hq : lp.stopQueueClosed = false) (hl : lp.stopListenerClosed = false) :
    (lp.Close sendOk closeOk).1
        = CallResult.returned (if closeOk then none else some LpError.portClose)
    ∧ (lp.Close sendOk closeOk).2.midi = none := by
  have hs := sendControlChange_open lp 0 0 sendOk hopen
  obtain ⟨c, hc⟩ := Option.isSome_iff_exists.mp hopen
  cases hls : lp.listenerStop <;> cases hqr : lp.queueRunning <;>
    simp [Launchpad.Close, hc, hs, hq, hl, hls, hqr, controllerSystem, systemReset]

/-- C18: `Reset` on an open session with a successful send, and every successful `Open`
(on any session that is not open, and in particular on one that was open and has been
closed), leave mapping mode X-Y, display buffer 0, update buffer 0 and flash off, whatever
the configuration was before. -/
theorem C18_reset_and_open_reset_config (lp s : Launchpad) (sendOk closeOk : Bool)
    (hopen : lp.midi.isSome = true)
    (hq : lp.stopQueueClosed = false) (hl : lp.stopListenerClosed = false) :
    ((lp.Reset true).1 = none ∧ (lp.Reset true).2.config = resetConfig)
    ∧ ((({ s with midi := none } : Launchpad).Open true true true).1 = none
        ∧ (({ s with midi := none } : Launchpad).Open true true true).2.config = resetConfig
        ∧ (({ s with midi := none } : Launchpad).Open true true true).2.midi.isSome = true)
    ∧ ((lp.Close sendOk closeOk).1
          = CallResult.returned (if closeOk then none else some LpError.portClose)
        ∧ ((lp.Close sendOk closeOk).2.Open true true true).1 = none
        ∧ ((lp.Close sendOk closeOk).2.Open true true true).2.config = resetConfig
        ∧ ((lp.Close sendOk closeOk).2.Open true true true).2.midi.isSome = true) := by
  have hc := Close_fresh lp sendOk closeOk hopen hq hl
  refine ⟨⟨?_, ?_⟩, ⟨?_, ?_, ?_⟩, ⟨hc.1, ?_, ?_, ?_⟩⟩
  · rw [Reset_open lp true hopen]; rfl
  · rw [Reset_open lp true hopen]; rfl
  · rw [Open_success _ rfl]
  · rw [Open_success _ rfl]; rfl
  · rw [Open_success _ rfl]; rfl
  · rw [Open_success _ hc.2]
  · rw [Open_success _ hc.2]; rfl
  · rw [Open_success _ hc.2]; rfl

theorem C18_reset_and_open_reset_config_witness :
    ((sampleSession.Reset true).1 = none ∧ (sampleSession.Reset true).2.config = resetConfig)
    ∧ ((({ sampleSession with midi := none } : Launchpad).Open true true true).1 = none
        ∧ (({ sampleSession with midi := none } : Launchpad).Open true true true).2.config = resetConfig
        ∧ (({ sampleSession with midi := none } : Launchpad).Open true true true).2.midi.isSome = true)
    ∧ ((sampleSession.Close true false).1
          = CallResult.returned (if false then none else some LpError.portClose)
        ∧ ((sampleSession.Close true false).2.Open true true true).1 = none
        ∧ ((sampleSession.Close true false).2.Open true true true).2.config = resetConfig
        ∧ ((sampleSession.Close true false).2.Open true true true).2.midi.isSome = true) :=
  C18_reset_and_open_reset_config sampleSession sampleSession true false
    (by decide) (by decide) (by decide)

/-- C19: on an open session each system command hands exactly one frame `(0xB0, 0, d)` to
the channel during the call and leaves the dispatcher queue alone: `d = 0` for `Reset`,
1 and 2 for `SetMappingMode` with X-Y and drum, 125, 126 and 127 for `TestLEDs` with low,
medium and full. `SetMappingMode` with any other mode and `TestLEDs` with any other
brightness (off included) return an error and send nothing. -/
theorem C19_system_command_bytes (lp : Launchpad) (ok : Bool) (mode brightness : Int)
    (hopen : lp.midi.isSome = true)
    (hmode : mode ≠ MappingXY ∧ mode ≠ MappingDrum)
    (hbright : brightness ≠ BrightnessLow ∧ brightness ≠ BrightnessMedium
      ∧ brightness ≠ BrightnessFull) :
    ((lp.Reset ok).2.wire = lp.wire ++ [(message.mk 0xB0 0 0, ok)]
      ∧ (lp.Reset ok).2.msgQueue = lp.msgQueue)
    ∧ ((lp.SetMappingMode MappingXY ok).2.wire = lp.wire ++ [(message.mk 0xB0 0 1, ok)]
      ∧ (lp.SetMappingMode MappingXY ok).2.msgQueue = lp.msgQueue)
    ∧ ((lp.SetMappingMode MappingDrum ok).2.wire = lp.wire ++ [(message.mk 0xB0 0 2, ok)]
      ∧ (lp.SetMappingMode MappingDrum ok).2.msgQueue = lp.msgQueue)
    ∧ ((lp.TestLEDs BrightnessLow ok).2.wire = lp.wire ++ [(message.mk 0xB0 0 125, ok)]
      ∧ (lp.TestLEDs BrightnessLow ok).2.msgQueue = lp.msgQueue)
    ∧ ((lp.TestLEDs BrightnessMedium ok).2.wire = lp.wire ++ [(message.mk 0xB0 0 126, ok)]
      ∧ (lp.TestLEDs BrightnessMedium ok).2.msgQueue = lp.msgQueue)
    ∧ ((lp.TestLEDs BrightnessFull ok).2.wire = lp.wire ++ [(message.mk 0xB0 0 127, ok)]
      ∧ (lp.TestLEDs BrightnessFull ok).2.msgQueue = lp.msgQueue)
    ∧ lp.SetMappingMode mode ok = (some (LpError.invalidMappingMode mode), lp)
    ∧ lp.TestLEDs brightness ok = (some (LpError.invalidTestBrightness brightness), lp)
    ∧ lp.TestLEDs BrightnessOff ok = (some (LpError.invalidTestBrightness BrightnessOff), lp) := by
  have hs : ∀ data : Nat, lp.sendControlChange 0 data ok =
      (if ok then none else some LpError.channel,
       { lp with wire := lp.wire ++ [(message.mk 0xB0 0 data, ok)] }) :=
    fun data => sendControlChange_open lp 0 data ok hopen
  obtain ⟨c, hc⟩ := Option.isSome_iff_exists.mp hopen
  have hdx : ¬ (MappingDrum = MappingXY) := by decide
  have hml : ¬ (BrightnessMedium = BrightnessLow) := by decide
  have hfl : ¬ (BrightnessFull = BrightnessLow) := by decide
  have hfm : ¬ (BrightnessFull = BrightnessMedium) := by decide
  have hol : ¬ (BrightnessOff = BrightnessLow) := by decide
  have hom : ¬ (BrightnessOff = BrightnessMedium) := by decide
  have hof : ¬ (BrightnessOff = BrightnessFull) := by decide
  refine ⟨?_, ?_, ?_, ?_, ?_, ?_, ?_, ?_, ?_⟩
  · rw [Reset_open lp ok hopen]; exact ⟨rfl, rfl⟩
  · cases ok <;>
      simp [Launchpad.SetMappingMode, hc, hs, controllerSystem, systemLayoutXY]
  · cases ok <;>
      simp [Launchpad.SetMappingMode, hc, hs, hdx, controllerSystem, systemLayoutDrum]
  · cases ok <;> simp [Launchpad.TestLEDs, hc, hs, controllerSystem, systemTestLow]
  · cases ok <;> simp [Launchpad.TestLEDs, hc, hs, hml, controllerSystem, systemTestMedium]
  · cases ok <;> simp [Launchpad.TestLEDs, hc, hs, hfl, hfm, controllerSystem, systemTestFull]
  · simp [Launchpad.SetMappingMode, hc, hmode.1, hmode.2]
  · simp [Launchpad.TestLEDs, hc, hbright.1, hbright.2.1, hbright.2.2]
  · simp [Launchpad.TestLEDs, hc, hol, hom, hof]

theorem C19_system_command_bytes_witness :
    ((sampleSession.Reset true).2.wire = sampleSession.wire ++ [(message.mk 0xB0 0 0, true)]
      ∧ (sampleSession.Reset true).2.msgQueue = sampleSession.msgQueue)
    ∧ ((sampleSession.SetMappingMode MappingXY true).2.wire = sampleSession.wire ++ [(message.mk 0xB0 0 1, true)]
      ∧ (sampleSession.SetMappingMode MappingXY true).2.msgQueue = sampleSession.msgQueue)
    ∧ ((sampleSession.SetMappingMode MappingDrum true).2.wire = sampleSession.wire ++ [(message.mk 0xB0 0 2, true)]
      ∧ (sampleSession.SetMappingMode MappingDrum true).2.msgQueue = sampleSession.msgQueue)
    ∧ ((sampleSession.TestLEDs BrightnessLow true).2.wire = sampleSession.wire ++ [(message.mk 0xB0 0 125, true)]
      ∧ (sampleSession.TestLEDs BrightnessLow true).2.msgQueue = sampleSession.msgQueue)
    ∧ ((sampleSession.TestLEDs BrightnessMedium true).2.wire = sampleSession.wire ++ [(message.mk 0xB0 0 126, true)]
      ∧ (sampleSession.TestLEDs BrightnessMedium true).2.msgQueue = sampleSession.msgQueue)
    ∧ ((sampleSession.TestLEDs BrightnessFull true).2.wire = sampleSession.wire ++ [(message.mk 0xB0 0 127, true)]
      ∧ (sampleSession.TestLEDs BrightnessFull true).2.msgQueue = sampleSession.msgQueue)
    ∧ sampleSession.SetMappingMode 2 true = (some (LpError.invalidMappingMode 2), sampleSession)
    ∧ sampleSession.TestLEDs 4 true = (some (LpError.invalidTestBrightness 4), sampleSession)
    ∧ sampleSession.TestLEDs BrightnessOff true = (some (LpError.invalidTestBrightness BrightnessOff), sampleSession) :=
  C19_system_command_bytes sampleSession true 2 4 (by decide) (by decide) (by decide)

/-- C20 (as the code behaves): when `Open` fails after the channel was acquired, the
session is not left as it was. After a failed reset send on a fresh session the channel
is dropped but the dispatcher stays marked running and the listener stop function stays
set; after a failed listener start the dispatcher stays marked running. -/
theorem C20_failed_open_keeps_marks :
    (New.Open true true false).1
        = some (LpError.wrapErr "failed to reset device" LpError.channel)
    ∧ (New.Open true true false).2.midi = none
    ∧ New.queueRunning = false ∧ (New.Open true true false).2.queueRunning = true
    ∧ New.listenerStop = false ∧ (New.Open true true false).2.listenerStop = true
    ∧ (New.Open true false true).1
        = some (LpError.wrapErr "failed to start listener" LpError.listen)
    ∧ (New.Open true false true).2.midi = none
    ∧ (New.Open true false true).2.queueRunning = true := by
  refine ⟨rfl, rfl, rfl, rfl, rfl, rfl, rfl, rfl, rfl⟩

/-- What does hold when `Open` fails on a session that is not open: an error is returned,
the session is not open afterwards, and the configuration is unchanged; when the channel
cannot be acquired the session value is untouched. -/
theorem Open_failure_keeps_config (s : Launchpad) (openOk listenOk sendOk : Bool)
    (hfail : (openOk && listenOk && sendOk) = false) :
    ((({ s with midi := none } : Launchpad).Open openOk listenOk sendOk).1.isSome = true)
    ∧ (({ s with midi := none } : Launchpad).Open openOk listenOk sendOk).2.midi = none
    ∧ (({ s with midi := none } : Launchpad).Open openOk listenOk sendOk).2.config
        = ({ s with midi := none } : Launchpad).config
    ∧ (({ s with midi := none } : Launchpad).Open false listenOk sendOk).2
        = ({ s with midi := none } : Launchpad) := by
  cases openOk <;> cases listenOk <;> cases sendOk <;>
    simp_all [Launchpad.Open, Launchpad.sendControlChange, midiConnection.sendControlChange,
      midiConnection.sendMessage, Launchpad.config]

/-! ## Close -/

theorem Close_not_open (t : Launchpad) (sendOk closeOk : Bool) (h : t.midi = none) :
    t.Close sendOk closeOk = (CallResult.returned none, t) := by
  simp [Launchpad.Close, h]

theorem Close_open_config (lp : Launchpad) (sendOk closeOk : Bool)
    (hopen : lp.midi.isSome = true) :
    (lp.Close sendOk closeOk).2.config = lp.config
    ∧ (lp.Close sendOk closeOk).2.wire = lp.wire ++ [(message.mk 0xB0 0 0, sendOk)] := by
  have hs := sendControlChange_open lp 0 0 sendOk hopen
  obtain ⟨c, hc⟩ := Option.isSome_iff_exists.mp hopen
  cases hls : lp.listenerStop <;> cases hqr : lp.queueRunning <;>
    cases hq : lp.stopQueueClosed <;> cases hl : lp.stopListenerClosed <;>
    simp [Launchpad.Close, hc, hs, hq, hl, hls, hqr, controllerSystem, systemReset,
      Launchpad.config]

theorem Close_returned_not_open (lp : Launchpad) (sendOk closeOk : Bool)
    (hret : (lp.Close sendOk closeOk).1 ≠ CallResult.panicked) :
    (lp.Close sendOk closeOk).2.midi = none := by
  cases hm : lp.midi with
  | none => rw [Close_not_open lp sendOk closeOk hm]; exact hm
  | some c =>
    have hopen : lp.midi.isSome = true := by rw [hm]; rfl
    have hs := sendControlChange_open lp 0 0 sendOk hopen
    revert hret
    cases hls : lp.listenerStop <;> cases hqr : lp.queueRunning <;>
      cases hq : lp.stopQueueClosed <;> cases hl : lp.stopListenerClosed <;>
      simp [Launchpad.Close, hm, hs, hq, hl, hls, hqr, controllerSystem, systemReset]

/-- C21 (as the code behaves): `Close` sends the reset frame but does not reset the
in-memory configuration. On a session opened with `Open`, then set to update buffer 1
and flash on, `Close` returns nil with the reset frame `(0xB0, 0, 0)` sent last, and the
getters still report update buffer 1 and flash on, where `Reset` on the same session
leaves 0, 0 and flash off. -/
theorem C21_close_keeps_stale_config :
    usedSession.midi.isSome = true
    ∧ usedSession.GetUpdateBuffer = 1 ∧ usedSession.IsFlashEnabled = true
    ∧ (usedSession.Close true true).1 = CallResult.returned none
    ∧ (usedSession.Close true true).2.midi = none
    ∧ (usedSession.Close true true).2.wire = usedSession.wire ++ [(message.mk 0xB0 0 0, true)]
    ∧ (usedSession.Close true true).2.GetDisplayBuffer = 0
    ∧ (usedSession.Close true true).2.GetUpdateBuffer = 1
    ∧ (usedSession.Close true true).2.IsFlashEnabled = true
    ∧ ¬ ((usedSession.Close true true).2.displayBuffer = 0
          ∧ (usedSession.Close true true).2.updateBuffer = 0
          ∧ (usedSession.Close true true).2.flashEnabled = false)
    ∧ (usedSession.Reset true).2.wire = usedSession.wire ++ [(message.mk 0xB0 0 0, true)]
    ∧ (usedSession.Reset true).2.config = resetConfig := by
  decide

/-- C22: `Close` on a session that is not open returns nil and leaves the session value,
trace included, exactly as it was; so a second `Close` right after a `Close` that
returned gives nil and the state the first one left. -/
theorem C22_close_idempotent (lp t : Launchpad) (s1 c1 s2 c2 : Bool)
    (hret : (lp.Close s1 c1).1 ≠ CallResult.panicked) :
    (({ t with midi := none } : Launchpad).Close s2 c2
        = (CallResult.returned none, ({ t with midi := none } : Launchpad)))
    ∧ New.Close s2 c2 = (CallResult.returned none, New)
    ∧ (lp.Close s1 c1).2.Close s2 c2 = (CallResult.returned none, (lp.Close s1 c1).2)
    ∧ ((lp.Close s1 c1).2.Close s2 c2).2.wire = (lp.Close s1 c1).2.wire := by
  have h2 := Close_not_open (lp.Close s1 c1).2 s2 c2 (Close_returned_not_open lp s1 c1 hret)
  refine ⟨Close_not_open _ s2 c2 rfl, Close_not_open _ s2 c2 rfl, h2, ?_⟩
  rw [h2]

theorem C22_close_idempotent_witness :
    (({ sampleSession with midi := none } : Launchpad).Close false false
        = (CallResult.returned none, ({ sampleSession with midi := none } : Launchpad)))
    ∧ New.Close false false = (CallResult.returned none, New)
    ∧ (sampleSession.Close true true).2.Close false false
        = (CallResult.returned none, (sampleSession.Close true true).2)
    ∧ ((sampleSession.Close true true).2.Close false false).2.wire
        = (sampleSession.Close true true).2.wire :=
  C22_close_idempotent sampleSession sampleSession true true false false (by decide)

/-! ## LED operations -/

theorem indices_eight : indices 8 = [0, 1, 2, 3, 4, 5, 6, 7] := by decide

theorem sendNoteOn_open (lp : Launchpad) (key velocity : Nat) (ok : Bool)
    (hopen : lp.midi.isSome = true) :
    lp.sendNoteOn key velocity ok =
      (if ok then none else some LpError.channel,
       { lp with wire := lp.wire ++ [(message.mk 0x90 key velocity, ok)] }) := by
  obtain ⟨c, hc⟩ := Option.isSome_iff_exists.mp hopen
  simp only [Launchpad.sendNoteOn, hc, midiConnection.sendNoteOn,
    midiConnection.sendMessage, statusNoteOn]

theorem SetButtonLED_not_open (t : Launchpad) (b : Button) (c v : Int) (ok : Bool)
    (h : t.midi = none) : t.SetButtonLED b c v ok = (some LpError.notOpen, t) := by
  simp [Launchpad.SetButtonLED, h]

theorem SetButtonLEDState_not_open (t : Launchpad) (b : Button) (st : LEDState) (ok : Bool)
    (h : t.midi = none) : t.SetButtonLEDState b st ok = (some LpError.notOpen, t) := by
  simp [Launchpad.SetButtonLEDState, h]

theorem SetButtonLED_invalid (lp : Launchpad) (b : Button) (c v : Int) (ok : Bool)
    (hopen : lp.midi.isSome = true)
    (hbad : b.Valid = false ∨ Brightness.Valid v = false) :
    (lp.SetButtonLED b c v ok).1.isSome = true ∧ (lp.SetButtonLED b c v ok).2 = lp := by
  obtain ⟨m, hm⟩ := Option.isSome_iff_exists.mp hopen
  cases hb : b.Valid with
  | false => simp [Launchpad.SetButtonLED, hm, hb]
  | true =>
    have hv : Brightness.Valid v = false := by
      rcases hbad with h | h
      · rw [hb] at h; cases h
      · exact h
    simp [Launchpad.SetButtonLED, hm, hb, hv]

theorem SetButtonLED_open_valid (lp : Launchpad) (b : Button) (c v : Int) (ok : Bool)
    (hopen : lp.midi.isSome = true) (hb : b.Valid = true) (hv : Brightness.Valid v = true) :
    lp.SetButtonLED b c v ok =
      (if ok then none else some LpError.channel,
       { lp with wire := lp.wire ++ [(ledFrame b (NewLEDState c v).Velocity, ok)] }) := by
  obtain ⟨m, hm⟩ := Option.isSome_iff_exists.mp hopen
  cases ht : b.IsTop with
  | false =>
    simp [Launchpad.SetButtonLED, hm, hb, hv, ht, ledFrame, Launchpad.sendNoteOn,
      midiConnection.sendNoteOn, midiConnection.sendMessage, statusNoteOn]
  | true =>
    simp [Launchpad.SetButtonLED, hm, hb, hv, ht, ledFrame, Launchpad.sendControlChange,
      midiConnection.sendControlChange, midiConnection.sendMessage, statusControlChange]

theorem SetButtonLEDState_open_valid (lp : Launchpad) (b : Button) (st : LEDState) (ok : Bool)
    (hopen : lp.midi.isSome = true) (hb : b.Valid = true) :
    lp.SetButtonLEDState b st ok =
      (if ok then none else some LpError.channel,
       { lp with wire := lp.wire ++ [(ledFrame b st.Velocity, ok)] }) := by
  obtain ⟨m, hm⟩ := Option.isSome_iff_exists.mp hopen
  cases ht : b.IsTop with
  | false =>
    simp [Launchpad.SetButtonLEDState, hm, hb, ht, ledFrame, Launchpad.sendNoteOn,
      midiConnection.sendNoteOn, midiConnection.sendMessage, statusNoteOn]
  | true =>
    simp [Launchpad.SetButtonLEDState, hm, hb, ht, ledFrame, Launchpad.sendControlChange,
      midiConnection.sendControlChange, midiConnection.sendMessage, statusControlChange]

theorem forLoop_first_error (body : Launchpad → Int → Option LpError × Launchpad)
    (i : Int) (rest : List Int) (lp lp1 : Launchpad) (err : LpError)
    (h : body lp i = (some err, lp1)) : forLoop body (i :: rest) lp = (some err, lp1) := by
  simp [forLoop, h]

/-- C23 (counterexample): on a session that was never opened, `SetRow` with row -1 returns
the invalid-row error, not the not-open error. -/
theorem C23_set_row_not_open_counterexample :
    New.midi = none
    ∧ New.SetRow (-1) ColorRed BrightnessFull (fun _ => true)
        = (some (LpError.invalidRow (-1)), New)
    ∧ (New.SetRow (-1) ColorRed BrightnessFull (fun _ => true)).1 ≠ some LpError.notOpen := by
  refine ⟨rfl, rfl, ?_⟩
  intro h
  cases h

/-- C23 (amended): on a session that is not open every device-facing operation returns an
error, sends nothing and leaves the session as it was, for every argument. The error is
the not-open error, except that `SetRow`, `SetColumn`, `SetSceneButton` and `SetTopButton`
check their index first and return their invalid-index error when it is outside 0..7. -/
theorem C23_not_open_operations_fail (t : Launchpad) (b : Button) (st : LEDState)
    (x y c v mode buf : Int) (e ok : Bool) (env : Nat → Bool) :
    ({ t with midi := none } : Launchpad).SetLED x y c v ok
        = (some LpError.notOpen, { t with midi := none })
    ∧ ({ t with midi := none } : Launchpad).SetButtonLED b c v ok
        = (some LpError.notOpen, { t with midi := none })
    ∧ ({ t with midi := none } : Launchpad).SetLEDState x y st ok
        = (some LpError.notOpen, { t with midi := none })
    ∧ ({ t with midi := none } : Launchpad).SetButtonLEDState b st ok
        = (some LpError.notOpen, { t with midi := none })
    ∧ ({ t with midi := none } : Launchpad).Clear env
        = (some LpError.notOpen, { t with midi := none })
    ∧ ({ t with midi := none } : Launchpad).SetAllLEDs c v env
        = (some LpError.notOpen, { t with midi := none })
    ∧ ({ t with midi := none } : Launchpad).SetAllTopButtons c v env
        = (some LpError.notOpen, { t with midi := none })
    ∧ ({ t with midi := none } : Launchpad).SetAllSceneButtons c v env
        = (some LpError.notOpen, { t with midi := none })
    ∧ ({ t with midi := none } : Launchpad).Reset ok
        = (some LpError.notOpen, { t with midi := none })
    ∧ ({ t with midi := none } : Launchpad).SetMappingMode mode ok
        = (some LpError.notOpen, { t with midi := none })
    ∧ ({ t with midi := none } : Launchpad).TestLEDs v ok
        = (some LpError.notOpen, { t with midi := none })
    ∧ ({ t with midi := none } : Launchpad).SetDisplayBuffer buf ok
        = (some LpError.notOpen, { t with midi := none })
    ∧ ({ t with midi := none } : Launchpad).SetUpdateBuffer buf ok
        = (some LpError.notOpen, { t with midi := none })
    ∧ ({ t with midi := none } : Launchpad).SwapBuffers ok
        = (some LpError.notOpen, { t with midi := none })
    ∧ ({ t with midi := none } : Launchpad).CopyBuffer ok
        = (some LpError.notOpen, { t with midi := none })
    ∧ ({ t with midi := none } : Launchpad).EnableFlash e ok
        = (some LpError.notOpen, { t with midi := none })
    ∧ ({ t with midi := none } : Launchpad).SetRow y c v env
        = (some (if y < 0 ∨ y ≥ 8 then LpError.invalidRow y else LpError.notOpen),
           { t with midi := none })
    ∧ ({ t with midi := none } : Launchpad).SetColumn x c v env
        = (some (if x < 0 ∨ x ≥ 8 then LpError.invalidColumn x else LpError.notOpen),
           { t with midi := none })
    ∧ ({ t with midi := none } : Launchpad).SetSceneButton y c v ok
        = (some (if y < 0 ∨ y ≥ 8 then LpError.invalidSceneIndex y else LpError.notOpen),
           { t with midi := none })
    ∧ ({ t with midi := none } : Launchpad).SetTopButton x c v ok
        = (some (if x < 0 ∨ x ≥ 8 then LpError.invalidTopIndex x else LpError.notOpen),
           { t with midi := none }) := by
  have hled : ∀ (b1 : Button) (c1 v1 : Int) (ok1 : Bool),
      ({ t with midi := none } : Launchpad).SetButtonLED b1 c1 v1 ok1
        = (some LpError.notOpen, { t with midi := none }) :=
    fun b1 c1 v1 ok1 => SetButtonLED_not_open _ b1 c1 v1 ok1 rfl
  have hst : ∀ (b1 : Button) (s1 : LEDState) (ok1 : Bool),
      ({ t with midi := none } : Launchpad).SetButtonLEDState b1 s1 ok1
        = (some LpError.notOpen, { t with midi := none }) :=
    fun b1 s1 ok1 => SetButtonLEDState_not_open _ b1 s1 ok1 rfl
  have hsetled : ∀ (x1 y1 c1 v1 : Int) (ok1 : Bool),
      ({ t with midi := none } : Launchpad).SetLED x1 y1 c1 v1 ok1
        = (some LpError.notOpen, { t with midi := none }) :=
    fun x1 y1 c1 v1 ok1 => hled (NewGridButton x1 y1) c1 v1 ok1
  have hrow : ∀ (y1 c1 v1 : Int),
      forLoop (fun lp1 x1 => Launchpad.SetLED lp1 x1 y1 c1 v1 (env lp1.wire.length))
        (indices GridWidth) ({ t with midi := none } : Launchpad)
        = (some LpError.notOpen, { t with midi := none }) := by
    intro y1 c1 v1
    have hi : indices GridWidth = [0, 1, 2, 3, 4, 5, 6, 7] := indices_eight
    rw [hi]
    exact forLoop_first_error _ 0 _ _ _ _ (hsetled 0 y1 c1 v1 _)
  have hgrid : ∀ (c1 v1 : Int),
      forLoop (fun lp1 y1 =>
        forLoop (fun lp2 x1 => Launchpad.SetLED lp2 x1 y1 c1 v1 (env lp2.wire.length))
          (indices GridWidth) lp1) (indices GridHeight) ({ t with midi := none } : Launchpad)
        = (some LpError.notOpen, { t with midi := none }) := by
    intro c1 v1
    have hi : indices GridHeight = [0, 1, 2, 3, 4, 5, 6, 7] := indices_eight
    rw [hi]
    exact forLoop_first_error _ 0 _ _ _ _ (hrow 0 c1 v1)
  have hscene : ∀ (y1 : Int) (ok1 : Bool),
      ({ t with midi := none } : Launchpad).SetSceneButton y1 c v ok1
        = (some (if y1 < 0 ∨ y1 ≥ 8 then LpError.invalidSceneIndex y1 else LpError.notOpen),
           { t with midi := none }) := by
    intro y1 ok1
    by_cases hy : y1 < 0 ∨ y1 ≥ 8
    · simp [Launchpad.SetSceneButton, SceneButtons, hy]
    · simp [Launchpad.SetSceneButton, SceneButtons, hy, hled]
  have htop : ∀ (x1 : Int) (ok1 : Bool),
      ({ t with midi := none } : Launchpad).SetTopButton x1 c v ok1
        = (some (if x1 < 0 ∨ x1 ≥ 8 then LpError.invalidTopIndex x1 else LpError.notOpen),
           { t with midi := none }) := by
    intro x1 ok1
    by_cases hx : x1 < 0 ∨ x1 ≥ 8
    · simp [Launchpad.SetTopButton, TopButtons, hx]
    · simp [Launchpad.SetTopButton, TopButtons, hx, hled]
  refine ⟨hsetled x y c v ok, hled b c v ok, hst (NewGridButton x y) st ok, hst b st ok, ?_,
    hgrid c v, ?_, ?_,
    ?_, ?_, ?_, ?_, ?_, ?_, ?_, ?_, ?_, ?_, hscene y ok, htop x ok⟩
  · simp only [Launchpad.Clear, hgrid]
  · have hi : indices TopButtons = [0, 1, 2, 3, 4, 5, 6, 7] := indices_eight
    simp only [Launchpad.SetAllTopButtons, hi]
    exact forLoop_first_error _ 0 _ _ _ _ (by simpa using htop 0 _)
  · have hi : indices SceneButtons = [0, 1, 2, 3, 4, 5, 6, 7] := indices_eight
    simp only [Launchpad.SetAllSceneButtons, hi]
    exact forLoop_first_error _ 0 _ _ _ _ (by simpa using hscene 0 _)
  · simp [Launchpad.Reset]
  · simp [Launchpad.SetMappingMode]
  · simp [Launchpad.TestLEDs]
  · simp [Launchpad.SetDisplayBuffer]
  · simp [Launchpad.SetUpdateBuffer]
  · simp [Launchpad.SwapBuffers]
  · simp [Launchpad.CopyBuffer]
  · simp [Launchpad.EnableFlash]
  · by_cases hy : y < 0 ∨ y ≥ 8
    · simp [Launchpad.SetRow, GridHeight, hy]
    · simp only [Launchpad.SetRow, GridHeight, hy, if_false]
      exact hrow y c v
  · by_cases hx : x < 0 ∨ x ≥ 8
    · simp [Launchpad.SetColumn, GridWidth, hx]
    · simp only [Launchpad.SetColumn, GridWidth, hx, if_false]
      have hi : indices GridHeight = [0, 1, 2, 3, 4, 5, 6, 7] := indices_eight
      rw [hi]
      exact forLoop_first_error _ 0 _ _ _ _ (hsetled x 0 c v _)

theorem exists_error_of (r : Option LpError × Launchpad) (lp : Launchpad)
    (h1 : r.1.isSome = true) (h2 : r.2 = lp) : ∃ err, r = (some err, lp) := by
  obtain ⟨err, he⟩ := Option.isSome_iff_exists.mp h1
  exact ⟨err, Prod.ext he h2⟩

theorem forLoop_first_invalid (body : Launchpad → Int → Option LpError × Launchpad)
    (i : Int) (rest : List Int) (lp : Launchpad)
    (h : (body lp i).1.isSome = true ∧ (body lp i).2 = lp) :
    (forLoop body (i :: rest) lp).1.isSome = true ∧ (forLoop body (i :: rest) lp).2 = lp := by
  obtain ⟨err, he⟩ := exists_error_of _ lp h.1 h.2
  rw [forLoop_first_error body i rest lp lp err he]
  exact ⟨rfl, rfl⟩

/-- C24: validation comes before any send. On an open session, `SetButtonLED` and `SetLED`
with an invalid button or a brightness outside 0..3, `SetSceneButton`, `SetTopButton`,
`SetRow` and `SetColumn` with an index outside 0..7 or such a brightness, and
`SetDisplayBuffer` and `SetUpdateBuffer` with a buffer id other than 0 and 1, return an
error and leave the session value, trace of sent frames included, exactly as it was. -/
theorem C24_validation_before_send (lp : Launchpad) (btn : Button) (x y idx c v buf : Int)
    (ok : Bool) (env : Nat → Bool) (hopen : lp.midi.isSome = true)
    (hbtn : btn.Valid = false ∨ Brightness.Valid v = false)
    (hxy : (NewGridButton x y).Valid = false ∨ Brightness.Valid v = false)
    (hidx : (idx < 0 ∨ idx ≥ 8) ∨ Brightness.Valid v = false)
    (hbuf : BufferID.Valid buf = false) :
    ((lp.SetButtonLED btn c v ok).1.isSome = true ∧ (lp.SetButtonLED btn c v ok).2 = lp)
    ∧ ((lp.SetLED x y c v ok).1.isSome = true ∧ (lp.SetLED x y c v ok).2 = lp)
    ∧ ((lp.SetSceneButton idx c v ok).1.isSome = true ∧ (lp.SetSceneButton idx c v ok).2 = lp)
    ∧ ((lp.SetTopButton idx c v ok).1.isSome = true ∧ (lp.SetTopButton idx c v ok).2 = lp)
    ∧ ((lp.SetRow idx c v env).1.isSome = true ∧ (lp.SetRow idx c v env).2 = lp)
    ∧ ((lp.SetColumn idx c v env).1.isSome = true ∧ (lp.SetColumn idx c v env).2 = lp)
    ∧ lp.SetDisplayBuffer buf ok = (some (LpError.invalidBufferID buf), lp)
    ∧ lp.SetUpdateBuffer buf ok = (some (LpError.invalidBufferID buf), lp) := by
  refine ⟨SetButtonLED_invalid lp btn c v ok hopen hbtn,
    SetButtonLED_invalid lp (NewGridButton x y) c v ok hopen hxy, ?_, ?_, ?_, ?_,
    SetDisplayBuffer_invalid lp buf ok hopen hbuf, SetUpdateBuffer_invalid lp buf ok hopen hbuf⟩
  · by_cases hi : idx < 0 ∨ idx ≥ 8
    · simp [Launchpad.SetSceneButton, SceneButtons, hi]
    · have hv : Brightness.Valid v = false := hidx.resolve_left hi
      simp only [Launchpad.SetSceneButton, SceneButtons, hi, if_false]
      exact SetButtonLED_invalid lp _ c v ok hopen (Or.inr hv)
  · by_cases hi : idx < 0 ∨ idx ≥ 8
    · simp [Launchpad.SetTopButton, TopButtons, hi]
    · have hv : Brightness.Valid v = false := hidx.resolve_left hi
      simp only [Launchpad.SetTopButton, TopButtons, hi, if_false]
      exact SetButtonLED_invalid lp _ c v ok hopen (Or.inr hv)
  · by_cases hi : idx < 0 ∨ idx ≥ 8
    · simp [Launchpad.SetRow, GridHeight, hi]
    · have hv : Brightness.Valid v = false := hidx.resolve_left hi
      have h8 : indices GridWidth = [0, 1, 2, 3, 4, 5, 6, 7] := indices_eight
      simp only [Launchpad.SetRow, GridHeight, hi, if_false, h8]
      exact forLoop_first_invalid _ 0 _ lp
        (SetButtonLED_invalid lp (NewGridButton 0 idx) c v _ hopen (Or.inr hv))
  · by_cases hi : idx < 0 ∨ idx ≥ 8
    · simp [Launchpad.SetColumn, GridWidth, hi]
    · have hv : Brightness.Valid v = false := hidx.resolve_left hi
      have h8 : indices GridHeight = [0, 1, 2, 3, 4, 5, 6, 7] := indices_eight
      simp only [Launchpad.SetColumn, GridWidth, hi, if_false, h8]
      exact forLoop_first_invalid _ 0 _ lp
        (SetButtonLED_invalid lp (NewGridButton idx 0) c v _ hopen (Or.inr hv))

theorem C24_validation_before_send_witness :
    ((sampleSession.SetButtonLED (NewTopButton 8) ColorRed 3 true).1.isSome = true
      ∧ (sampleSession.SetButtonLED (NewTopButton 8) ColorRed 3 true).2 = sampleSession)
    ∧ ((sampleSession.SetLED 0 (-1) ColorRed 3 true).1.isSome = true
      ∧ (sampleSession.SetLED 0 (-1) ColorRed 3 true).2 = sampleSession)
    ∧ ((sampleSession.SetSceneButton 8 ColorRed 3 true).1.isSome = true
      ∧ (sampleSession.SetSceneButton 8 ColorRed 3 true).2 = sampleSession)
    ∧ ((sampleSession.SetTopButton 8 ColorRed 3 true).1.isSome = true
      ∧ (sampleSession.SetTopButton 8 ColorRed 3 true).2 = sampleSession)
    ∧ ((sampleSession.SetRow 8 ColorRed 3 (fun _ => true)).1.isSome = true
      ∧ (sampleSession.SetRow 8 ColorRed 3 (fun _ => true)).2 = sampleSession)
    ∧ ((sampleSession.SetColumn 8 ColorRed 3 (fun _ => true)).1.isSome = true
      ∧ (sampleSession.SetColumn 8 ColorRed 3 (fun _ => true)).2 = sampleSession)
    ∧ sampleSession.SetDisplayBuffer 2 true = (some (LpError.invalidBufferID 2), sampleSession)
    ∧ sampleSession.SetUpdateBuffer 2 true = (some (LpError.invalidBufferID 2), sampleSession) :=
  C24_validation_before_send sampleSession (NewTopButton 8) 0 (-1) 8 ColorRed 3 2 true
    (fun _ => true) (by decide) (by decide) (by decide) (by decide) (by decide)

/-- C25 (as the code behaves): `SetButtonLEDState` does not check the intensities. On the
open sample session, the grid button (0, 0) with green intensity 8 is accepted: the call
returns nil and sends the frame `(0x90, 0, 140)`, whose data byte is above 127. -/
theorem C25_led_state_not_validated :
    sampleSession.midi.isSome = true
    ∧ (NewGridButton 0 0).Valid = true
    ∧ Brightness.Valid 8 = false
    ∧ (sampleSession.SetButtonLEDState (NewGridButton 0 0)
          { Red := 0, Green := 8, Flash := false } true).1 = none
    ∧ (sampleSession.SetButtonLEDState (NewGridButton 0 0)
          { Red := 0, Green := 8, Flash := false } true).2.wire
        = sampleSession.wire ++ [(message.mk 0x90 0 140, true)]
    ∧ (sampleSession.SetLEDState 0 0 { Red := 0, Green := 8, Flash := false } true).1 = none := by
  decide

/-- C26 (counterexample): on a session opened with `Open`, the scene button whose `X`
field is 300 passes `Valid`, and `SetButtonLED` on it sends the key byte 44, the low
eight bits of `16*0 + 300`, not 300. -/
theorem C26_scene_key_counterexample :
    openedSession.midi.isSome = true
    ∧ (Button.mk 300 0 true false).Valid = true
    ∧ Brightness.Valid BrightnessFull = true
    ∧ (openedSession.SetButtonLED (Button.mk 300 0 true false) ColorRed BrightnessFull true).2.wire
        = openedSession.wire ++ [(message.mk 0x90 44 15, true)]
    ∧ ¬ ((openedSession.SetButtonLED (Button.mk 300 0 true false) ColorRed BrightnessFull
            true).2.wire
          = openedSession.wire ++
              [(message.mk 0x90 (Int.toNat (16 * (Button.mk 300 0 true false).Y
                  + (Button.mk 300 0 true false).X)) (NewLEDState ColorRed BrightnessFull).Velocity,
                true)]) := by
  decide

/-- The frame sent by `SetButtonLED`: on an open session, for a valid
button and a brightness in 0..3, exactly one frame is sent; it is
`(0xB0, 104 + X, vel)` for a top button and `(0x90, 16*Y + X, vel)` for a grid button,
and also for a scene button provided `16*Y + X` is at most 255. -/
theorem SetButtonLED_frame (lp : Launchpad) (b : Button) (c v : Int) (ok : Bool)
    (hopen : lp.midi.isSome = true) (hb : b.Valid = true) (hv : Brightness.Valid v = true)
    (hscene : b.IsTop = false → b.IsScene = true → 0 ≤ b.X ∧ 16 * b.Y + b.X ≤ 255) :
    (lp.SetButtonLED b c v ok).2.wire = lp.wire ++
      [(if b.IsTop then message.mk 0xB0 (Int.toNat (104 + b.X)) (NewLEDState c v).Velocity
        else message.mk 0x90 (Int.toNat (16 * b.Y + b.X)) (NewLEDState c v).Velocity, ok)] := by
  rw [SetButtonLED_open_valid lp b c v ok hopen hb hv]
  obtain ⟨x, y, sc, tp⟩ := b
  cases tp with
  | true =>
    simp only [Button.Valid, TopButtons, if_true, Bool.and_eq_true, decide_eq_true_eq] at hb
    have hk : byte (Button.mk x y sc true).MIDIController = Int.toNat (104 + x) := by
      simp only [Button.MIDIController, controllerTopButton0, wrapInt, byte]
      simp
      omega
    simp [ledFrame, hk]
  | false =>
    have hk : byte (Button.mk x y sc false).MIDIKey = Int.toNat (16 * y + x) := by
      cases sc with
      | true =>
        have h := hscene rfl rfl
        simp only [Button.Valid, SceneButtons, Bool.and_eq_true, decide_eq_true_eq] at hb
        simp at hb h
        simp only [Button.MIDIKey, wrapInt, byte]
        simp
        omega
      | false =>
        simp only [Button.Valid, GridWidth, GridHeight, Bool.and_eq_true,
          decide_eq_true_eq] at hb
        simp at hb
        simp only [Button.MIDIKey, wrapInt, byte]
        simp
        omega
    simp [ledFrame, hk]

/-- The LED frame of a valid button that is a top button, a grid button, or a scene
button whose `X` field is 8: controller `104 + X` for a top button, key `16*Y + X`
otherwise, neither changed by the conversion to a byte. -/
theorem ledFrame_valid_eq (b : Button) (vel : Nat) (hb : b.Valid = true)
    (hscene : b.IsTop = false → b.IsScene = true → b.X = 8) :
    ledFrame b vel =
      if b.IsTop then message.mk 0xB0 (Int.toNat (104 + b.X)) vel
      else message.mk 0x90 (Int.toNat (16 * b.Y + b.X)) vel := by
  obtain ⟨x, y, sc, tp⟩ := b
  cases tp with
  | true =>
    simp only [Button.Valid, TopButtons, if_true, Bool.and_eq_true, decide_eq_true_eq] at hb
    have hk : byte (Button.mk x y sc true).MIDIController = Int.toNat (104 + x) := by
      simp only [Button.MIDIController, controllerTopButton0, wrapInt, byte]
      simp
      omega
    simp [ledFrame, hk]
  | false =>
    have hk : byte (Button.mk x y sc false).MIDIKey = Int.toNat (16 * y + x) := by
      cases sc with
      | true =>
        have h := hscene rfl rfl
        simp only [Button.Valid, SceneButtons, Bool.and_eq_true, decide_eq_true_eq] at hb
        simp at hb h
        subst h
        simp only [Button.MIDIKey, wrapInt, byte]
        simp
        omega
      | false =>
        simp only [Button.Valid, GridWidth, GridHeight, Bool.and_eq_true,
          decide_eq_true_eq] at hb
        simp at hb
        simp only [Button.MIDIKey, wrapInt, byte]
        simp
        omega
    simp [ledFrame, hk]

/-- C26 (amended): on an open session, for every valid button that is a top button, a
grid button, or a scene button whose `X` field is 8 (as `NewSceneButton` builds it),
every colour and every brightness in 0..3, `SetButtonLED` sends exactly one frame and
changes nothing else: `(0xB0, 104 + X, vel)` for a top button and `(0x90, 16*Y + X, vel)`
otherwise, with `vel` the velocity of `NewLEDState`; the result is the outcome of that
send. In particular `SetLED(0, 0, red, full)` sends `(0x90, 0, 15)` and
`SetTopButton(7, amber, medium)` sends `(0xB0, 111, 46)`. -/
theorem C26_led_set_frame (lp : Launchpad) (b : Button) (c v : Int) (ok : Bool)
    (hopen : lp.midi.isSome = true) (hb : b.Valid = true) (hv : Brightness.Valid v = true)
    (hscene : b.IsTop = false → b.IsScene = true → b.X = 8) :
    lp.SetButtonLED b c v ok =
      (if ok then none else some LpError.channel,
       { lp with wire := lp.wire ++
          [(if b.IsTop then message.mk 0xB0 (Int.toNat (104 + b.X)) (NewLEDState c v).Velocity
            else message.mk 0x90 (Int.toNat (16 * b.Y + b.X)) (NewLEDState c v).Velocity, ok)] })
    ∧ lp.SetLED 0 0 ColorRed BrightnessFull ok =
        (if ok then none else some LpError.channel,
         { lp with wire := lp.wire ++ [(message.mk 0x90 0 15, ok)] })
    ∧ lp.SetTopButton 7 ColorAmber BrightnessMedium ok =
        (if ok then none else some LpError.channel,
         { lp with wire := lp.wire ++ [(message.mk 0xB0 111 46, ok)] }) := by
  refine ⟨?_, ?_, ?_⟩
  · rw [SetButtonLED_open_valid lp b c v ok hopen hb hv, ledFrame_valid_eq b _ hb hscene]
  · have h := SetButtonLED_open_valid lp (NewGridButton 0 0) ColorRed BrightnessFull ok hopen
      (by decide) (by decide)
    have hf : ledFrame (NewGridButton 0 0) (NewLEDState ColorRed BrightnessFull).Velocity
        = message.mk 0x90 0 15 := by decide
    rw [hf] at h
    exact h
  · have h := SetButtonLED_open_valid lp (NewTopButton 7) ColorAmber BrightnessMedium ok hopen
      (by decide) (by decide)
    have hf : ledFrame (NewTopButton 7) (NewLEDState ColorAmber BrightnessMedium).Velocity
        = message.mk 0xB0 111 46 := by decide
    rw [hf] at h
    have hidx : ¬ ((7 : Int) < 0 ∨ (7 : Int) ≥ TopButtons) := by decide
    simp only [Launchpad.SetTopButton, hidx, if_false]
    exact h

theorem C26_led_set_frame_witness :
    openedSession.SetButtonLED (NewSceneButton 7) ColorYellow BrightnessFull true =
      (if true then none else some LpError.channel,
       { openedSession with wire := openedSession.wire ++
          [(if (NewSceneButton 7).IsTop
              then message.mk 0xB0 (Int.toNat (104 + (NewSceneButton 7).X))
                (NewLEDState ColorYellow BrightnessFull).Velocity
            else message.mk 0x90 (Int.toNat (16 * (NewSceneButton 7).Y + (NewSceneButton 7).X))
                (NewLEDState ColorYellow BrightnessFull).Velocity, true)] })
    ∧ openedSession.SetLED 0 0 ColorRed BrightnessFull true =
        (if true then none else some LpError.channel,
         { openedSession with wire := openedSession.wire ++ [(message.mk 0x90 0 15, true)] })
    ∧ openedSession.SetTopButton 7 ColorAmber BrightnessMedium true =
        (if true then none else some LpError.channel,
         { openedSession with wire := openedSession.wire ++ [(message.mk 0xB0 111 46, true)] }) :=
  C26_led_set_frame openedSession (NewSceneButton 7) ColorYellow BrightnessFull true
    (by decide) (by decide) (by decide) (by decide)


/-- C27 (as the code behaves): `SetButtonLED` and `SetButtonLEDState` send on the channel
during the call and put nothing on the dispatcher queue. On the open sample session,
whose queue and trace are empty, setting grid button (0, 0) to full red leaves the queue
empty and the frame `(0x90, 0, 15)` on the wire. -/
theorem C27_led_set_bypasses_queue :
    sampleSession.midi.isSome = true
    ∧ sampleSession.msgQueue = [] ∧ sampleSession.wire = []
    ∧ (sampleSession.SetButtonLED (NewGridButton 0 0) ColorRed BrightnessFull true).2.msgQueue = []
    ∧ (sampleSession.SetButtonLED (NewGridButton 0 0) ColorRed BrightnessFull true).2.wire
        = [(message.mk 0x90 0 15, true)]
    ∧ (sampleSession.SetButtonLEDState (NewGridButton 0 0)
          { Red := 3, Green := 0, Flash := false } true).2.msgQueue = []
    ∧ (sampleSession.SetButtonLEDState (NewGridButton 0 0)
          { Red := 3, Green := 0, Flash := false } true).2.wire
        = [(message.mk 0x90 0 15, true)] := by
  decide

/-! ## Dispatcher queue -/

theorem processMessageQueueStep_cons (lp : Launchpad) (m : message) (rest : List message)
    (ok : Bool) (hopen : lp.midi.isSome = true) (hq : lp.msgQueue = m :: rest) :
    lp.processMessageQueueStep ok =
      { lp with msgQueue := rest, wire := lp.wire ++ [(m, ok)] } := by
  obtain ⟨c, hc⟩ := Option.isSome_iff_exists.mp hopen
  simp [Launchpad.processMessageQueueStep, hq, hc, midiConnection.sendMessage]

theorem processMessageQueueStep_nil (lp : Launchpad) (ok : Bool) (hq : lp.msgQueue = []) :
    lp.processMessageQueueStep ok = lp := by
  simp [Launchpad.processMessageQueueStep, hq]

/-- Running the drain loop on an open session: the messages leave the queue from the
front, one per iteration, and reach the wire in queue order, each paired with the
outcome of its own send. -/
theorem processMessageQueue_drain (oks : List Bool) :
    ∀ lp : Launchpad, lp.midi.isSome = true →
      lp.processMessageQueue oks =
        { lp with
          msgQueue := lp.msgQueue.drop oks.length,
          wire := lp.wire ++ lp.msgQueue.zip oks } := by
  induction oks with
  | nil => intro lp _; simp [Launchpad.processMessageQueue]
  | cons o rest ih =>
    intro lp hopen
    have hfold : lp.processMessageQueue (o :: rest)
        = (lp.processMessageQueueStep o).processMessageQueue rest := rfl
    rw [hfold]
    cases hq : lp.msgQueue with
    | nil =>
      rw [processMessageQueueStep_nil lp o hq, ih lp hopen, hq]
      simp
    | cons m ms =>
      rw [processMessageQueueStep_cons lp m ms o hopen hq,
        ih ({ lp with msgQueue := ms, wire := lp.wire ++ [(m, o)] }) hopen]
      simp

theorem queueMessage_room (lp : Launchpad) (m : message)
    (h : lp.msgQueue.length < msgQueueCap) :
    lp.queueMessage m.status m.data1 m.data2 = some { lp with msgQueue := lp.msgQueue ++ [m] } := by
  simp [Launchpad.queueMessage, h]

/-- C28: dispatcher ordering. On an open session with room in the queue, messages queued
in the order A, B, C sit behind the messages already queued, in that order. The drain
loop then hands the queue to the channel from the front, one message per iteration, each
once: after the earlier messages, one iteration sends A, the next B, the next C, whatever
the outcome of each send, and the queue ends empty. -/
theorem C28_dispatcher_fifo (lp : Launchpad) (A B C : message) (oks : List Bool)
    (o1 o2 o3 : Bool) (hopen : lp.midi.isSome = true)
    (hroom : lp.msgQueue.length + 3 ≤ msgQueueCap) (hlen : oks.length = lp.msgQueue.length) :
    ((lp.queueMessage A.status A.data1 A.data2).bind (fun l1 =>
        (l1.queueMessage B.status B.data1 B.data2).bind (fun l2 =>
          l2.queueMessage C.status C.data1 C.data2))
      = some { lp with msgQueue := lp.msgQueue ++ [A, B, C] })
    ∧ ({ lp with msgQueue := lp.msgQueue ++ [A, B, C] } : Launchpad).processMessageQueue oks
        = { lp with msgQueue := [A, B, C], wire := lp.wire ++ lp.msgQueue.zip oks }
    ∧ ({ lp with msgQueue := lp.msgQueue ++ [A, B, C] } : Launchpad).processMessageQueue
          (oks ++ [o1])
        = { lp with msgQueue := [B, C], wire := lp.wire ++ lp.msgQueue.zip oks ++ [(A, o1)] }
    ∧ ({ lp with msgQueue := lp.msgQueue ++ [A, B, C] } : Launchpad).processMessageQueue
          (oks ++ [o1, o2])
        = { lp with msgQueue := [C],
                    wire := lp.wire ++ lp.msgQueue.zip oks ++ [(A, o1), (B, o2)] }
    ∧ ({ lp with msgQueue := lp.msgQueue ++ [A, B, C] } : Launchpad).processMessageQueue
          (oks ++ [o1, o2, o3])
        = { lp with msgQueue := [],
                    wire := lp.wire ++ lp.msgQueue.zip oks ++ [(A, o1), (B, o2), (C, o3)] } := by
  have hzip : ∀ extra : List Bool, ∀ tail : List message,
      (lp.msgQueue ++ tail).zip (oks ++ extra) = lp.msgQueue.zip oks ++ tail.zip extra := by
    intro extra tail
    exact List.zip_append hlen.symm
  have hdrop : ∀ tail : List message, ∀ n : Nat,
      (lp.msgQueue ++ tail).drop (oks.length + n) = tail.drop n := by
    intro tail n
    rw [hlen, List.drop_append]
  refine ⟨?_, ?_, ?_, ?_, ?_⟩
  · have hA := queueMessage_room lp A (by omega)
    have hB := queueMessage_room ({ lp with msgQueue := lp.msgQueue ++ [A] }) B
      (by simp only [List.length_append, List.length_singleton]; omega)
    have hC := queueMessage_room ({ lp with msgQueue := lp.msgQueue ++ [A] ++ [B] }) C
      (by simp only [List.length_append, List.length_singleton]; omega)
    rw [hA, Option.some_bind, hB, Option.some_bind, hC]
    simp
  · rw [processMessageQueue_drain oks ({ lp with msgQueue := lp.msgQueue ++ [A, B, C] }) hopen]
    have h1 := hzip [] [A, B, C]
    have h2 := hdrop [A, B, C] 0
    simp only [List.append_nil, Nat.add_zero, List.zip_nil_right, List.drop_zero] at h1 h2
    simp [h1, h2]
  · rw [processMessageQueue_drain (oks ++ [o1]) ({ lp with msgQueue := lp.msgQueue ++ [A, B, C] }) hopen]
    have h1 := hzip [o1] [A, B, C]
    have h2 := hdrop [A, B, C] 1
    simp [h1, h2, List.append_assoc]
  · rw [processMessageQueue_drain (oks ++ [o1, o2]) ({ lp with msgQueue := lp.msgQueue ++ [A, B, C] }) hopen]
    have h1 := hzip [o1, o2] [A, B, C]
    have h2 := hdrop [A, B, C] 2
    simp [h1, h2, List.append_assoc]
  · rw [processMessageQueue_drain (oks ++ [o1, o2, o3]) ({ lp with msgQueue := lp.msgQueue ++ [A, B, C] }) hopen]
    have h1 := hzip [o1, o2, o3] [A, B, C]
    have h2 := hdrop [A, B, C] 3
    simp [h1, h2, List.append_assoc]

theorem C28_dispatcher_fifo_witness :
    ((sampleSession.queueMessage (message.mk 0x90 0 15).status (message.mk 0x90 0 15).data1 (message.mk 0x90 0 15).data2).bind (fun l1 =>
        (l1.queueMessage (message.mk 0x90 1 15).status (message.mk 0x90 1 15).data1 (message.mk 0x90 1 15).data2).bind (fun l2 =>
          l2.queueMessage (message.mk 0xB0 104 12).status (message.mk 0xB0 104 12).data1 (message.mk 0xB0 104 12).data2))
      = some { sampleSession with msgQueue := sampleSession.msgQueue ++ [(message.mk 0x90 0 15), (message.mk 0x90 1 15), (message.mk 0xB0 104 12)] })
    ∧ ({ sampleSession with msgQueue := sampleSession.msgQueue ++ [(message.mk 0x90 0 15), (message.mk 0x90 1 15), (message.mk 0xB0 104 12)] } : Launchpad).processMessageQueue ([] : List Bool)
        = { sampleSession with msgQueue := [(message.mk 0x90 0 15), (message.mk 0x90 1 15), (message.mk 0xB0 104 12)], wire := sampleSession.wire ++ sampleSession.msgQueue.zip ([] : List Bool) }
    ∧ ({ sampleSession with msgQueue := sampleSession.msgQueue ++ [(message.mk 0x90 0 15), (message.mk 0x90 1 15), (message.mk 0xB0 104 12)] } : Launchpad).processMessageQueue
          (([] : List Bool) ++ [true])
        = { sampleSession with msgQueue := [(message.mk 0x90 1 15), (message.mk 0xB0 104 12)], wire := sampleSession.wire ++ sampleSession.msgQueue.zip ([] : List Bool) ++ [((message.mk 0x90 0 15), true)] }
    ∧ ({ sampleSession with msgQueue := sampleSession.msgQueue ++ [(message.mk 0x90 0 15), (message.mk 0x90 1 15), (message.mk 0xB0 104 12)] } : Launchpad).processMessageQueue
          (([] : List Bool) ++ [true, false])
        = { sampleSession with msgQueue := [(message.mk 0xB0 104 12)], wire := sampleSession.wire ++ sampleSession.msgQueue.zip ([] : List Bool) ++ [((message.mk 0x90 0 15), true), ((message.mk 0x90 1 15), false)] }
    ∧ ({ sampleSession with msgQueue := sampleSession.msgQueue ++ [(message.mk 0x90 0 15), (message.mk 0x90 1 15), (message.mk 0xB0 104 12)] } : Launchpad).processMessageQueue
          (([] : List Bool) ++ [true, false, true])
        = { sampleSession with msgQueue := [], wire := sampleSession.wire ++ sampleSession.msgQueue.zip ([] : List Bool) ++ [((message.mk 0x90 0 15), true), ((message.mk 0x90 1 15), false), ((message.mk 0xB0 104 12), true)] } :=
  C28_dispatcher_fifo sampleSession (message.mk 0x90 0 15) (message.mk 0x90 1 15)
    (message.mk 0xB0 104 12) [] true false true (by decide) (by decide) (by decide)

/-! ## Handler registration -/

theorem OnButton_foldl_handlers (hs : List Nat) :
    ∀ lp : Launchpad,
      hs.foldl Launchpad.OnButton lp = { lp with buttonHandlers := lp.buttonHandlers ++ hs } := by
  induction hs with
  | nil => intro lp; simp
  | cons h rest ih =>
    intro lp
    rw [List.foldl_cons, ih]
    simp [Launchpad.OnButton]

/-- C30: handlers run in registration order. Registering `hs` one after the other appends
them, in that order, behind the handlers already registered. A frame that decodes to the
event `e` then calls every registered handler once with `e`, in registration order, and
leaves the handler list as it is. A handler registered after that frame is not called
for it: it is called, last, only for the frames that come later. -/
theorem C30_handlers_in_registration_order (lp : Launchpad) (hs : List Nat) (late : Nat)
    (msg msg2 : List Nat) (e e2 : ButtonEvent)
    (hd : decodeMessage msg = some e) (hd2 : decodeMessage msg2 = some e2) :
    (hs.foldl Launchpad.OnButton lp).buttonHandlers = lp.buttonHandlers ++ hs
    ∧ ((hs.foldl Launchpad.OnButton lp).handleIncomingMessage msg).calls
        = lp.calls ++ (lp.buttonHandlers ++ hs).map (fun i => (i, e))
    ∧ ((hs.foldl Launchpad.OnButton lp).handleIncomingMessage msg).buttonHandlers
        = lp.buttonHandlers ++ hs
    ∧ ((((hs.foldl Launchpad.OnButton lp).handleIncomingMessage msg).OnButton
          late).handleIncomingMessage msg2).calls
        = lp.calls ++ (lp.buttonHandlers ++ hs).map (fun i => (i, e))
            ++ (lp.buttonHandlers ++ hs ++ [late]).map (fun i => (i, e2)) := by
  rw [OnButton_foldl_handlers hs lp]
  refine ⟨rfl, ?_, ?_, ?_⟩
  · rw [handleIncomingMessage_of_decode _ msg e hd]
  · rw [handleIncomingMessage_of_decode _ msg e hd]
  · rw [handleIncomingMessage_of_decode _ msg e hd, handleIncomingMessage_of_decode _ msg2 e2 hd2]
    simp [Launchpad.OnButton]

theorem C30_handlers_in_registration_order_witness :
    ([5, 3, 9].foldl Launchpad.OnButton sampleSession).buttonHandlers
        = sampleSession.buttonHandlers ++ [5, 3, 9]
    ∧ (([5, 3, 9].foldl Launchpad.OnButton sampleSession).handleIncomingMessage
          [0x90, 8, 127]).calls
        = sampleSession.calls ++ (sampleSession.buttonHandlers ++ [5, 3, 9]).map
            (fun i => (i, ({ Button := NewSceneButton 0, Pressed := true } : ButtonEvent)))
    ∧ (([5, 3, 9].foldl Launchpad.OnButton sampleSession).handleIncomingMessage
          [0x90, 8, 127]).buttonHandlers
        = sampleSession.buttonHandlers ++ [5, 3, 9]
    ∧ (((([5, 3, 9].foldl Launchpad.OnButton sampleSession).handleIncomingMessage
          [0x90, 8, 127]).OnButton 7).handleIncomingMessage [0xB0, 104, 0]).calls
        = sampleSession.calls ++ (sampleSession.buttonHandlers ++ [5, 3, 9]).map
            (fun i => (i, ({ Button := NewSceneButton 0, Pressed := true } : ButtonEvent)))
            ++ (sampleSession.buttonHandlers ++ [5, 3, 9] ++ [7]).map
            (fun i => (i, ({ Button := NewTopButton 0, Pressed := false } : ButtonEvent))) :=
  C30_handlers_in_registration_order sampleSession [5, 3, 9] 7 [0x90, 8, 127] [0xB0, 104, 0]
    { Button := NewSceneButton 0, Pressed := true } { Button := NewTopButton 0, Pressed := false }
    (by decide) (by decide)

/-! ## Clear -/

theorem sendAll_midi (env : Nat → Bool) (fs : List message) :
    ∀ lp : Launchpad, (sendAll env fs lp).2.midi = lp.midi := by
  induction fs with
  | nil => intro lp; rfl
  | cons m rest ih =>
    intro lp
    cases hok : env lp.wire.length with
    | false => simp [sendAll, midiConnection.sendMessage, hok]
    | true =>
      simp only [sendAll, midiConnection.sendMessage, hok, if_true]
      rw [ih]

theorem sendAll_append (env : Nat → Bool) (fs1 fs2 : List message) :
    ∀ lp : Launchpad,
      sendAll env (fs1 ++ fs2) lp =
        match sendAll env fs1 lp with
        | (some err, lp1) => (some err, lp1)
        | (none, lp1) => sendAll env fs2 lp1 := by
  induction fs1 with
  | nil => intro lp; simp [sendAll]
  | cons m rest ih =>
    intro lp
    cases hok : env lp.wire.length with
    | false => simp [sendAll, midiConnection.sendMessage, hok]
    | true =>
      rw [List.cons_append]
      simp only [sendAll, midiConnection.sendMessage, hok, if_true]
      exact ih _

/-- A loop of `SetButtonLED` calls over valid buttons sends the LED frames of those
buttons in order and stops after the first failed send. -/
theorem forLoop_SetButtonLED (env : Nat → Bool) (mk : Int → Button) (c v : Int)
    (hv : Brightness.Valid v = true) (is : List Int) :
    (∀ i ∈ is, (mk i).Valid = true) →
    ∀ lp : Launchpad, lp.midi.isSome = true →
      forLoop (fun lp1 i => Launchpad.SetButtonLED lp1 (mk i) c v (env lp1.wire.length)) is lp
        = sendAll env (is.map (fun i => ledFrame (mk i) (NewLEDState c v).Velocity)) lp := by
  induction is with
  | nil => intro _ lp _; rfl
  | cons i rest ih =>
    intro hvalid lp hopen
    have hb : (mk i).Valid = true := hvalid i (List.mem_cons_self i rest)
    have hrest : ∀ j ∈ rest, (mk j).Valid = true :=
      fun j hj => hvalid j (List.mem_cons_of_mem i hj)
    simp only [forLoop, List.map_cons, sendAll]
    rw [SetButtonLED_open_valid lp (mk i) c v _ hopen hb hv]
    cases hok : env lp.wire.length with
    | false => simp [midiConnection.sendMessage]
    | true =>
      simp only [midiConnection.sendMessage, if_true]
      exact ih hrest _ hopen

/-- The nested grid loop sends the frames row by row. -/
theorem forLoop_grid (env : Nat → Bool) (c v : Int) (hv : Brightness.Valid v = true)
    (xs ys : List Int) :
    (∀ y ∈ ys, ∀ x ∈ xs, (NewGridButton x y).Valid = true) →
    ∀ lp : Launchpad, lp.midi.isSome = true →
      forLoop (fun lp1 y =>
          forLoop (fun lp2 x => Launchpad.SetLED lp2 x y c v (env lp2.wire.length)) xs lp1) ys lp
        = sendAll env
            (ys.flatMap (fun y =>
              xs.map (fun x => ledFrame (NewGridButton x y) (NewLEDState c v).Velocity))) lp := by
  induction ys with
  | nil => intro _ lp _; rfl
  | cons y rest ih =>
    intro hvalid lp hopen
    have hrow : ∀ x ∈ xs, (NewGridButton x y).Valid = true :=
      hvalid y (List.mem_cons_self y rest)
    have hrest : ∀ y1 ∈ rest, ∀ x ∈ xs, (NewGridButton x y1).Valid = true :=
      fun y1 hy1 => hvalid y1 (List.mem_cons_of_mem y hy1)
    have hinner : forLoop (fun lp2 x => Launchpad.SetLED lp2 x y c v (env lp2.wire.length)) xs lp
        = sendAll env
            (xs.map (fun x => ledFrame (NewGridButton x y) (NewLEDState c v).Velocity)) lp :=
      forLoop_SetButtonLED env (fun x => NewGridButton x y) c v hv xs hrow lp hopen
    rw [List.flatMap_cons, sendAll_append]
    simp only [forLoop]
    rw [hinner]
    have hm := sendAll_midi env
      (xs.map (fun x => ledFrame (NewGridButton x y) (NewLEDState c v).Velocity)) lp
    cases hres : sendAll env
        (xs.map (fun x => ledFrame (NewGridButton x y) (NewLEDState c v).Velocity)) lp with
    | mk r lp1 =>
      rw [hres] at hm
      cases r with
      | some err => rfl
      | none =>
        have hopen1 : lp1.midi.isSome = true := by
          have : lp1.midi = lp.midi := hm
          rw [this]; exact hopen
        exact ih hrest lp1 hopen1

/-- What `sendAll` does when the first `k` sends succeed and, if frames remain, the next
one fails: the first `k` frames are sent, then the failing one, and nothing after. -/
theorem sendAll_prefix (env : Nat → Bool) (fs : List message) :
    ∀ (lp : Launchpad) (k : Nat), k ≤ fs.length →
      (∀ i, i < k → env (lp.wire.length + i) = true) →
      (k < fs.length → env (lp.wire.length + k) = false) →
      sendAll env fs lp =
        (if k < fs.length then some LpError.channel else none,
         { lp with wire := lp.wire ++ (fs.take k).map (fun m => (m, true))
                     ++ ((fs.drop k).take 1).map (fun m => (m, false)) }) := by
  induction fs with
  | nil =>
    intro lp k hk _ _
    have : k = 0 := by simpa using hk
    subst this
    simp [sendAll]
  | cons m rest ih =>
    intro lp k hk hpre hfail
    cases k with
    | zero =>
      have h0 : env lp.wire.length = false := by simpa using hfail (by simp)
      simp [sendAll, midiConnection.sendMessage, h0]
    | succ n =>
      have h0 : env lp.wire.length = true := by simpa using hpre 0 (by omega)
      have hn : n ≤ rest.length := by simpa using hk
      simp only [sendAll, midiConnection.sendMessage, h0, if_true]
      rw [ih ({ lp with wire := lp.wire ++ [(message.mk m.status m.data1 m.data2, true)] }) n hn
        (by
          intro i hi
          have := hpre (i + 1) (by omega)
          simpa [Nat.add_assoc, Nat.add_comm 1 i] using this)
        (by
          intro hlt
          have := hfail (by simpa using hlt)
          simpa [Nat.add_assoc, Nat.add_comm 1 n] using this)]
      simp [List.append_assoc]

theorem clearFrames_length : clearFrames.length = 80 := by decide

theorem clearFrames_eq :
    clearFrames =
      (indices GridHeight).flatMap (fun y =>
          (indices GridWidth).map (fun x =>
            ledFrame (NewGridButton x y) (NewLEDState ColorOff BrightnessOff).Velocity))
        ++ (indices SceneButtons).map (fun y =>
            ledFrame (NewSceneButton y) (NewLEDState ColorOff BrightnessOff).Velocity)
        ++ (indices TopButtons).map (fun x =>
            ledFrame (NewTopButton x) (NewLEDState ColorOff BrightnessOff).Velocity) := by
  decide

/-- On an open session `Clear` sends the frames of `clearFrames` in order and stops after
the first failed send. -/
theorem Clear_eq_sendAll (lp : Launchpad) (env : Nat → Bool) (hopen : lp.midi.isSome = true) :
    lp.Clear env = sendAll env clearFrames lp := by
  have hv : Brightness.Valid BrightnessOff = true := by decide
  have hgv : ∀ y ∈ indices GridHeight, ∀ x ∈ indices GridWidth,
      (NewGridButton x y).Valid = true := by decide
  have hsv : ∀ y ∈ indices SceneButtons, (NewSceneButton y).Valid = true := by decide
  have htv : ∀ x ∈ indices TopButtons, (NewTopButton x).Valid = true := by decide
  have hG := forLoop_grid env ColorOff BrightnessOff hv (indices GridWidth) (indices GridHeight)
    hgv lp hopen
  have hS := forLoop_SetButtonLED env NewSceneButton ColorOff BrightnessOff hv
    (indices SceneButtons) hsv
  have hT := forLoop_SetButtonLED env NewTopButton ColorOff BrightnessOff hv
    (indices TopButtons) htv
  rw [clearFrames_eq, sendAll_append, sendAll_append]
  simp only [Launchpad.Clear]
  rw [hG]
  have hm1 := sendAll_midi env
    ((indices GridHeight).flatMap (fun y =>
      (indices GridWidth).map (fun x =>
        ledFrame (NewGridButton x y) (NewLEDState ColorOff BrightnessOff).Velocity))) lp
  cases hres : sendAll env
    ((indices GridHeight).flatMap (fun y =>
      (indices GridWidth).map (fun x =>
        ledFrame (NewGridButton x y) (NewLEDState ColorOff BrightnessOff).Velocity))) lp with
  | mk r lp1 =>
    rw [hres] at hm1
    cases r with
    | some err => rfl
    | none =>
      have hopen1 : lp1.midi.isSome = true := by
        have : lp1.midi = lp.midi := hm1
        rw [this]; exact hopen
      simp only []
      rw [hS lp1 hopen1]
      have hm2 := sendAll_midi env
        ((indices SceneButtons).map (fun y =>
          ledFrame (NewSceneButton y) (NewLEDState ColorOff BrightnessOff).Velocity)) lp1
      cases hres2 : sendAll env
        ((indices SceneButtons).map (fun y =>
          ledFrame (NewSceneButton y) (NewLEDState ColorOff BrightnessOff).Velocity)) lp1 with
      | mk r2 lp2 =>
        rw [hres2] at hm2
        cases r2 with
        | some err => rfl
        | none =>
          have hopen2 : lp2.midi.isSome = true := by
            have : lp2.midi = lp1.midi := hm2
            rw [this]; exact hopen1
          simp only []
          exact hT lp2 hopen2

/-- C29: on an open session `Clear` sends, in this order, `(0x90, 16*y + x, 12)` for
`y = 0..7` and within each `y` for `x = 0..7`, then `(0x90, 16*y + 8, 12)` for `y = 0..7`,
then `(0xB0, 104 + x, 12)` for `x = 0..7`: 80 frames. When the first `k` sends succeed and
the next one, if any is left, fails, exactly the first `k` frames and the failed one are
sent; the result is that send error, or nil when `k = 80`. -/
theorem C29_clear_frames (lp : Launchpad) (env : Nat → Bool) (k : Nat)
    (hopen : lp.midi.isSome = true) (hk : k ≤ 80)
    (hpre : ∀ i, i < k → env (lp.wire.length + i) = true)
    (hfail : k < 80 → env (lp.wire.length + k) = false) :
    clearFrames.length = 80
    ∧ lp.Clear env =
        (if k < 80 then some LpError.channel else none,
         { lp with wire := lp.wire ++ (clearFrames.take k).map (fun m => (m, true))
                     ++ ((clearFrames.drop k).take 1).map (fun m => (m, false)) }) := by
  refine ⟨clearFrames_length, ?_⟩
  rw [Clear_eq_sendAll lp env hopen]
  have h := sendAll_prefix env clearFrames lp k (by rw [clearFrames_length]; exact hk) hpre
    (by rw [clearFrames_length]; exact hfail)
  rw [clearFrames_length] at h
  exact h

theorem C29_clear_frames_witness :
    clearFrames.length = 80
    ∧ sampleSession.Clear (fun n => decide (n ≠ 65)) =
        (if 65 < 80 then some LpError.channel else none,
         { sampleSession with wire := sampleSession.wire
                     ++ (clearFrames.take 65).map (fun m => (m, true))
                     ++ ((clearFrames.drop 65).take 1).map (fun m => (m, false)) }) :=
  C29_clear_frames sampleSession (fun n => decide (n ≠ 65)) 65 (by decide) (by decide)
    (by intro i hi; simp [sampleSession, New]; omega)
    (by intro _; simp [sampleSession, New])

/-! ## Event queue, velocity constants, colour lowering -/

/-- C31: the event queue drops the newest event when it is full, independently of the
handlers. With 50 events queued, a decodable frame leaves the queue as it is and every
registered handler is still called once with the new event; with fewer than 50 queued,
the event is appended at the tail. -/
theorem C31_full_queue_drops_newest (lp : Launchpad) (msg : List Nat) (e : ButtonEvent)
    (qfull qroom : List ButtonEvent) (hd : decodeMessage msg = some e)
    (hfull : qfull.length = 50) (hroom : qroom.length < 50) :
    ((({ lp with eventChan := qfull } : Launchpad).handleIncomingMessage msg).eventChan = qfull
      ∧ (({ lp with eventChan := qfull } : Launchpad).handleIncomingMessage msg).calls
          = lp.calls ++ lp.buttonHandlers.map (fun i => (i, e)))
    ∧ ((({ lp with eventChan := qroom } : Launchpad).handleIncomingMessage msg).eventChan
          = qroom ++ [e]
      ∧ (({ lp with eventChan := qroom } : Launchpad).handleIncomingMessage msg).calls
          = lp.calls ++ lp.buttonHandlers.map (fun i => (i, e))) := by
  rw [handleIncomingMessage_of_decode _ msg e hd, handleIncomingMessage_of_decode _ msg e hd]
  have h1 : ¬ (qfull.length < 50) := by omega
  simp [h1, hroom]

theorem C31_full_queue_drops_newest_witness :
    ((({ sampleSession with
          eventChan := List.replicate 50 { Button := NewGridButton 1 1, Pressed := false } }
        : Launchpad).handleIncomingMessage [0x90, 8, 127]).eventChan
          = List.replicate 50 { Button := NewGridButton 1 1, Pressed := false }
      ∧ (({ sampleSession with
          eventChan := List.replicate 50 { Button := NewGridButton 1 1, Pressed := false } }
        : Launchpad).handleIncomingMessage [0x90, 8, 127]).calls
          = sampleSession.calls ++ sampleSession.buttonHandlers.map
              (fun i => (i, ({ Button := NewSceneButton 0, Pressed := true } : ButtonEvent))))
    ∧ ((({ sampleSession with eventChan := [] } : Launchpad).handleIncomingMessage
          [0x90, 8, 127]).eventChan
          = [] ++ [({ Button := NewSceneButton 0, Pressed := true } : ButtonEvent)]
      ∧ (({ sampleSession with eventChan := [] } : Launchpad).handleIncomingMessage
          [0x90, 8, 127]).calls
          = sampleSession.calls ++ sampleSession.buttonHandlers.map
              (fun i => (i, ({ Button := NewSceneButton 0, Pressed := true } : ButtonEvent)))) :=
  C31_full_queue_drops_newest sampleSession [0x90, 8, 127]
    { Button := NewSceneButton 0, Pressed := true }
    (List.replicate 50 { Button := NewGridButton 1 1, Pressed := false }) []
    (by decide) (by decide) (by decide)

/-- C32: every pre-calculated velocity constant equals what `GetVelocity` computes for the
colour and brightness it names, and each flash constant equals the velocity of the full
brightness state of its colour with the flash flag set. -/
theorem C32_velocity_constants :
    (VelocityOff = GetVelocity ColorOff BrightnessOff ∧ VelocityOff = 12)
    ∧ (VelocityRedLow = GetVelocity ColorRed BrightnessLow ∧ VelocityRedLow = 13)
    ∧ (VelocityRedMedium = GetVelocity ColorRed BrightnessMedium ∧ VelocityRedMedium = 14)
    ∧ (VelocityRedFull = GetVelocity ColorRed BrightnessFull ∧ VelocityRedFull = 15)
    ∧ (VelocityAmberLow = GetVelocity ColorAmber BrightnessLow ∧ VelocityAmberLow = 29)
    ∧ (VelocityAmberMedium = GetVelocity ColorAmber BrightnessMedium ∧ VelocityAmberMedium = 46)
    ∧ (VelocityAmberFull = GetVelocity ColorAmber BrightnessFull ∧ VelocityAmberFull = 63)
    ∧ (VelocityGreenLow = GetVelocity ColorGreen BrightnessLow ∧ VelocityGreenLow = 28)
    ∧ (VelocityGreenMedium = GetVelocity ColorGreen BrightnessMedium ∧ VelocityGreenMedium = 44)
    ∧ (VelocityGreenFull = GetVelocity ColorGreen BrightnessFull ∧ VelocityGreenFull = 60)
    ∧ (VelocityYellowFull = GetVelocity ColorYellow BrightnessFull ∧ VelocityYellowFull = 62)
    ∧ (VelocityRedFullFlash
          = LEDState.Velocity { NewLEDState ColorRed BrightnessFull with Flash := true }
        ∧ VelocityRedFullFlash = 11)
    ∧ (VelocityAmberFullFlash
          = LEDState.Velocity { NewLEDState ColorAmber BrightnessFull with Flash := true }
        ∧ VelocityAmberFullFlash = 59)
    ∧ (VelocityYellowFullFlash
          = LEDState.Velocity { NewLEDState ColorYellow BrightnessFull with Flash := true }
        ∧ VelocityYellowFullFlash = 58)
    ∧ (VelocityGreenFullFlash
          = LEDState.Velocity { NewLEDState ColorGreen BrightnessFull with Flash := true }
        ∧ VelocityGreenFullFlash = 56) := by
  decide

/-- Colour lowering for any colour value: with a brightness in 0..3 the state has flash
off and both intensities in 0..3. -/
theorem NewLEDState_range (c v : Int) (hv0 : 0 ≤ v) (hv3 : v ≤ 3) :
    (NewLEDState c v).Flash = false
    ∧ 0 ≤ (NewLEDState c v).Red ∧ (NewLEDState c v).Red ≤ 3
    ∧ 0 ≤ (NewLEDState c v).Green ∧ (NewLEDState c v).Green ≤ 3 := by
  simp only [NewLEDState, BrightnessOff, BrightnessLow, ColorOff, ColorRed, ColorGreen,
    ColorAmber, ColorYellow, wrapInt]
  split_ifs <;> simp <;> omega

/-- C33: for each of the five colours and every brightness `v` in 0..3, `NewLEDState` has
flash off and both intensities in 0..3; the intensities are (0, 0) for off or `v = 0`,
`(v, 0)` for red, `(0, v)` for green and `(v, v)` for amber. -/
theorem C33_color_lowering (c v : Int) (hc0 : 0 ≤ c) (hc4 : c ≤ 4) (hv0 : 0 ≤ v) (hv3 : v ≤ 3) :
    ((NewLEDState c v).Flash = false
      ∧ 0 ≤ (NewLEDState c v).Red ∧ (NewLEDState c v).Red ≤ 3
      ∧ 0 ≤ (NewLEDState c v).Green ∧ (NewLEDState c v).Green ≤ 3)
    ∧ NewLEDState ColorOff v = { Red := 0, Green := 0, Flash := false }
    ∧ NewLEDState c 0 = { Red := 0, Green := 0, Flash := false }
    ∧ NewLEDState ColorRed v = { Red := v, Green := 0, Flash := false }
    ∧ NewLEDState ColorGreen v = { Red := 0, Green := v, Flash := false }
    ∧ NewLEDState ColorAmber v = { Red := v, Green := v, Flash := false } := by
  refine ⟨NewLEDState_range c v hv0 hv3, ?_, ?_, ?_, ?_, ?_⟩
  · interval_cases v <;> decide
  · interval_cases c <;> decide
  · interval_cases v <;> decide
  · interval_cases v <;> decide
  · interval_cases v <;> decide

theorem C33_color_lowering_witness :
    ((NewLEDState 4 2).Flash = false
      ∧ 0 ≤ (NewLEDState 4 2).Red ∧ (NewLEDState 4 2).Red ≤ 3
      ∧ 0 ≤ (NewLEDState 4 2).Green ∧ (NewLEDState 4 2).Green ≤ 3)
    ∧ NewLEDState ColorOff 2 = { Red := 0, Green := 0, Flash := false }
    ∧ NewLEDState 4 0 = { Red := 0, Green := 0, Flash := false }
    ∧ NewLEDState ColorRed 2 = { Red := 2, Green := 0, Flash := false }
    ∧ NewLEDState ColorGreen 2 = { Red := 0, Green := 2, Flash := false }
    ∧ NewLEDState ColorAmber 2 = { Red := 2, Green := 2, Flash := false } :=
  C33_color_lowering 4 2 (by decide) (by decide) (by decide) (by decide)

/-! ## Decoded positions, reopening, outbound bytes -/

/-- C34 (as the code behaves): the note-on branch of the decoder has no range check. The
frame `(0x90, 9, 127)` decodes to the grid button at column 9, row 0, for which `Valid`
is false, and that event is queued and handed to every handler. -/
theorem C34_decoded_button_out_of_range :
    decodeMessage [0x90, 9, 127] = some { Button := NewGridButton 9 0, Pressed := true }
    ∧ (NewGridButton 9 0).Valid = false
    ∧ (sampleSession.handleIncomingMessage [0x90, 9, 127]).eventChan
        = sampleSession.eventChan ++ [{ Button := NewGridButton 9 0, Pressed := true }]
    ∧ (sampleSession.handleIncomingMessage [0x90, 9, 127]).calls
        = [(0, { Button := NewGridButton 9 0, Pressed := true }),
           (1, { Button := NewGridButton 9 0, Pressed := true })]
    ∧ decodeMessage [0x90, 0xFF, 0] = some { Button := NewGridButton 15 15, Pressed := false }
    ∧ (NewGridButton 15 15).Valid = false := by
  decide

/-- Where decoded positions are in range: every event of a control-change frame carries
a valid top button, and a note-on frame with key `k` carries a valid button exactly when
`k mod 16` is at most 8 and `k / 16` is at most 7. -/
theorem decodeMessage_valid (k c v : Nat) (rest : List Nat) (e : ButtonEvent)
    (hcc : decodeMessage (0xB0 :: c :: v :: rest) = some e) :
    e.Button.Valid = true
    ∧ ∀ e1, decodeMessage (0x90 :: k :: v :: rest) = some e1 →
        (e1.Button.Valid = true ↔ (k % 16 ≤ 8 ∧ k / 16 ≤ 7)) := by
  constructor
  · by_cases hr : 104 ≤ c ∧ c ≤ 111
    · rw [decodeMessage_controlChange c v rest hr.1 hr.2] at hcc
      injection hcc with hcc
      subst hcc
      simp only [Button.Valid, NewTopButton, TopButtons, if_true, Bool.and_eq_true,
        decide_eq_true_eq]
      omega
    · have hout : c < 104 ∨ 111 < c := by omega
      rw [decodeMessage_other_controller c v rest hout] at hcc
      cases hcc
  · intro e1 h1
    rw [decodeMessage_noteOn k v rest] at h1
    injection h1 with h1
    subst h1
    by_cases h8 : k % 16 = 8
    · simp only [h8, if_true, Button.Valid, NewSceneButton, SceneButtons]
      simp
      omega
    · simp only [h8, if_false, Button.Valid, NewGridButton, GridWidth, GridHeight]
      simp
      omega

/-- C35 (as the code behaves): `Open`, `Close`, `Open`, `Close` on a fresh session, with
every channel operation succeeding, panics in the second `Close`: the first `Close`
closed `stopQueue`, `Open` does not make a new one, and the second `Close` closes it
again. The session is still open when the panic occurs. -/
theorem C35_second_close_panics :
    (New.Open true true true).1 = none
    ∧ ((New.Open true true true).2.Close true true).1 = CallResult.returned none
    ∧ ((New.Open true true true).2.Close true true).2.stopQueueClosed = true
    ∧ (((New.Open true true true).2.Close true true).2.Open true true true).1 = none
    ∧ ((((New.Open true true true).2.Close true true).2.Open true true true).2.Close
          true true).1 = CallResult.panicked
    ∧ ((((New.Open true true true).2.Close true true).2.Open true true true).2.Close
          true true).2.midi.isSome = true := by
  decide

/-- C36 (as the code behaves): a scene button whose `X` field is 200 passes `Valid`, and
`SetButtonLED` on it sends the data byte 200, above 127; with `X = 300` the conversion to
a byte truncates 300 to 44. -/
theorem C36_scene_key_above_127 :
    (Button.mk 200 0 true false).Valid = true
    ∧ Brightness.Valid BrightnessFull = true
    ∧ (sampleSession.SetButtonLED (Button.mk 200 0 true false) ColorRed BrightnessFull true).2.wire
        = sampleSession.wire ++ [(message.mk 0x90 200 15, true)]
    ∧ ¬ (200 ≤ 127)
    ∧ (Button.mk 300 0 true false).Valid = true
    ∧ (Button.mk 300 0 true false).MIDIKey = 300
    ∧ byte (Button.mk 300 0 true false).MIDIKey = 44 := by
  decide

/-- The velocity sent by `SetButtonLED` lies in 12..63, for every colour value and every
brightness in 0..3. -/
theorem NewLEDState_velocity_range (c v : Int) (hv : Brightness.Valid v = true) :
    12 ≤ (NewLEDState c v).Velocity ∧ (NewLEDState c v).Velocity ≤ 63 := by
  simp only [Brightness.Valid, Bool.and_eq_true, decide_eq_true_eq] at hv
  obtain ⟨hf, hr0, hr3, hg0, hg3⟩ := NewLEDState_range c v hv.1 hv.2
  have hvel := velocity_in_range (NewLEDState c v).Red (NewLEDState c v).Green false
    hr0 hr3 hg0 hg3
  have hst : ({ Red := (NewLEDState c v).Red, Green := (NewLEDState c v).Green, Flash := false }
      : LEDState) = NewLEDState c v := by
    rw [← hf]
  rw [hst] at hvel
  simp at hvel
  omega

/-- The data bytes of the LED frame of a valid button: a controller in 104..111 for a top
button, a key of at most 119 for a grid button, and a key of at most 120 for a scene
button whose `X` field is 8. -/
theorem ledFrame_data1_range (b : Button) (vel : Nat) (hb : b.Valid = true)
    (hscene : b.IsTop = false → b.IsScene = true → b.X = 8) :
    (ledFrame b vel).data1 ≤ 127 ∧ (ledFrame b vel).data2 = vel
    ∧ (b.IsTop = true → 104 ≤ (ledFrame b vel).data1 ∧ (ledFrame b vel).data1 ≤ 111)
    ∧ (b.IsTop = false → (ledFrame b vel).data1 ≤ 120
        ∧ ((ledFrame b vel).data1 : Int) = 16 * b.Y + b.X) := by
  obtain ⟨x, y, sc, tp⟩ := b
  cases tp with
  | true =>
    simp only [Button.Valid, TopButtons, if_true, Bool.and_eq_true, decide_eq_true_eq] at hb
    have hk : byte (Button.mk x y sc true).MIDIController = Int.toNat (104 + x) := by
      simp only [Button.MIDIController, controllerTopButton0, wrapInt, byte]
      simp
      omega
    simp only [ledFrame, if_true, hk]
    refine ⟨?_, ?_, ?_, ?_⟩
    · omega
    · trivial
    · intro _; omega
    · intro h; cases h
  | false =>
    have hk : ((byte (Button.mk x y sc false).MIDIKey : Nat) : Int) = 16 * y + x
        ∧ byte (Button.mk x y sc false).MIDIKey ≤ 120 := by
      cases sc with
      | true =>
        have h := hscene rfl rfl
        simp only [Button.Valid, SceneButtons, Bool.and_eq_true, decide_eq_true_eq] at hb
        simp at hb h
        subst h
        simp only [Button.MIDIKey, wrapInt, byte]
        simp
        omega
      | false =>
        simp only [Button.Valid, GridWidth, GridHeight, Bool.and_eq_true,
          decide_eq_true_eq] at hb
        simp at hb
        simp only [Button.MIDIKey, wrapInt, byte]
        simp
        omega
    simp only [ledFrame, Bool.false_eq_true, if_false]
    generalize byte (Button.mk x y sc false).MIDIKey = kb at hk
    refine ⟨?_, ?_, ?_, ?_⟩
    · omega
    · trivial
    · intro h; cases h
    · intro _; exact ⟨hk.2, hk.1⟩

/-- The buffer command byte lies in 32..61 when both buffer ids are in 0..1, with or
without the flash and copy flags. -/
theorem bufferData_range (u d : Int) (f : Bool) (hu : BufferID.Valid u = true)
    (hd : BufferID.Valid d = true) :
    (32 ≤ bufferData u d (if f then bufferFlagFlash else 0)
      ∧ bufferData u d (if f then bufferFlagFlash else 0) ≤ 45)
    ∧ (48 ≤ bufferData u d (if f then Int.lor bufferFlagCopy bufferFlagFlash else bufferFlagCopy)
      ∧ bufferData u d (if f then Int.lor bufferFlagCopy bufferFlagFlash else bufferFlagCopy)
          ≤ 61) := by
  simp only [BufferID.Valid, Buffer0, Buffer1, Bool.or_eq_true, decide_eq_true_eq] at hu hd
  cases f <;> rcases hu with rfl | rfl <;> rcases hd with rfl | rfl <;> decide

end Golp
